import Mathlib

/-! # IPL3 checksum brute-forcer (`main.cpp`): embedding and properties

The C++ program works on `u32` words.  A word is a natural number below
`2^32`; every operation that can wrap in C++ reduces modulo `2^32` here.
The accumulator `state.buffer` (16 words) is a function on `Fin 16`, and the
pointer `state.input` (a view into the boot image starting at word 16) is a
function from word index to word.
-/

namespace IplGpu

/-! ## Machine words -/

/-- Number of values of a `u32`. -/
def WORD : Nat := 4294967296

/-- Number of values of a `u64`. -/
def DWORD : Nat := 18446744073709551616

/-- `a + b` on `u32`. -/
def add32 (a b : Nat) : Nat := (a + b) % WORD

/-- `a - b` on `u32` (wraps below zero). -/
def sub32 (a b : Nat) : Nat := (a + (WORD - b % WORD)) % WORD

/-- Unary `-a` on `u32`. -/
def neg32 (a : Nat) : Nat := (WORD - a % WORD) % WORD

/-- `a * b` on `u32`. -/
def mul32 (a b : Nat) : Nat := (a * b) % WORD

/-- `std::rotr` on `u32`: rotate right by `s mod 32` bit positions. -/
def rotr32 (x s : Nat) : Nat :=
  let r := s % 32
  if r = 0 then x else ((x >>> r) ||| (x <<< (32 - r))) % WORD

/-- `std::rotl` on `u32`: rotate left by `s mod 32` bit positions. -/
def rotl32 (x s : Nat) : Nat :=
  let r := s % 32
  if r = 0 then x else ((x <<< r) ||| (x >>> (32 - r))) % WORD

/-- `std::byteswap` on `u32`: the four bytes in reverse order. -/
def byteswap (x : Nat) : Nat :=
  (x % 256) * 16777216 + (x / 256 % 256) * 65536 + (x / 65536 % 256) * 256
    + (x / 16777216 % 256)

/-! ## Constants -/

def MAGIC_NUMBER : Nat := 0x6c078965
def BOOTCODE_OFFSET : Nat := 0x40
def BOOTCODE_SIZE : Nat := 0x1000
def BOOTCODE_SIZE_WORDS : Nat := BOOTCODE_SIZE / 4

/-! ## Checksum state -/

/-- The struct `CheckSumState`: sixteen accumulator words and the input view. -/
structure CheckSumState where
  buffer : Fin 16 → Nat
  input : Nat → Nat

/-- Every accumulator slot holds a `u32`. -/
def BufferInRange (buffer : Fin 16 → Nat) : Prop := ∀ i, buffer i < WORD

/-- Every input word holds a `u32`. -/
def InputInRange (input : Nat → Nat) : Prop := ∀ i, input i < WORD

/-- Assignment `buffer[i] = v`. -/
def setSlot (buffer : Fin 16 → Nat) (i : Fin 16) (v : Nat) : Fin 16 → Nat :=
  fun j => if j = i then v else buffer j

/-- Assignment `input[i] = v`. -/
def setInput (input : Nat → Nat) (i : Nat) (v : Nat) : Nat → Nat :=
  fun j => if j = i then v else input j

/-- The function `checksumInit`: every slot receives
`(MAGIC_NUMBER * (seed & 0xff) + 1) ^ input[0]`. -/
def checksumInit (state : CheckSumState) (seed : Nat) : CheckSumState :=
  let init := add32 (mul32 MAGIC_NUMBER (seed &&& 0xff)) 1
  let data := state.input 0
  let init := init ^^^ data
  { state with buffer := fun _ => init }

/-- The function `hashMulDiff`. -/
def hashMulDiff (factorBase factorA factorB : Nat) : Nat :=
  let factorA := if factorA = 0 then factorB else factorA
  let prod := (factorBase * factorA) % DWORD
  let diff := sub32 ((prod >>> 32) % WORD) (prod % WORD)
  if diff = 0 then factorBase else diff

/-- The function `checksumCalculateStep_DataAndLastIsZero_1007_Indep`. -/
def checksumCalculateStep_DataAndLastIsZero_1007_Indep (state : CheckSumState) :
    CheckSumState :=
  let b := state.buffer
  let b := setSlot b 3 (add32 (b 3) (hashMulDiff 5 MAGIC_NUMBER 1007))
  let b :=
    if 0 < b 6 then setSlot b 6 ((add32 (b 3) (b 6)) ^^^ 1007)
    else setSlot b 6 ((b 4) ^^^ (b 6))
  { state with buffer := b }

/-- The function `checksumCalculateStep`, statement by statement. -/
def checksumCalculateStep (state : CheckSumState) (loop : Nat) : CheckSumState :=
  let dataLast := state.input (if loop = 1 then 0 else sub32 loop 2)
  let data := state.input (sub32 loop 1)
  let b := state.buffer
  let b := setSlot b 0 (add32 (b 0) (hashMulDiff (sub32 1007 loop) data loop))
  let b := setSlot b 2 ((b 2) ^^^ data)
  let b := setSlot b 3 (add32 (b 3) (hashMulDiff (add32 data 5) MAGIC_NUMBER loop))
  let b := setSlot b 4 (add32 (b 4) (rotr32 data (dataLast &&& 0x1F)))
  let b := setSlot b 5 (add32 (b 5) (rotl32 data (dataLast >>> 27)))
  let b :=
    if data < b 6 then setSlot b 6 ((add32 (b 3) (b 6)) ^^^ (add32 data loop))
    else setSlot b 6 ((add32 (b 4) data) ^^^ (b 6))
  let b :=
    if dataLast < data then setSlot b 9 (hashMulDiff (b 9) data loop)
    else setSlot b 9 (add32 (b 9) data)
  if loop = 1008 then { state with buffer := b }
  else
    let dataNext := state.input loop
    let b := setSlot b 10 (hashMulDiff (add32 (b 10) data) dataNext loop)
    let b := setSlot b 11 (hashMulDiff ((b 11) ^^^ data) dataNext loop)
    let b := setSlot b 12 (add32 (b 12) data)
    let b := setSlot b 13
      (add32 (b 13) (add32 (rotr32 data (data &&& 0x1F)) (rotr32 dataNext (dataNext &&& 0x1F))))
    { state with buffer := b }

/-- The function `checksumCalculate`: the steps `1, 2, ..., loopEnd` in order
(the C++ counter does not wrap for `loopEnd < 2^32 - 1`). -/
def checksumCalculate (state : CheckSumState) : Nat → CheckSumState
  | 0 => state
  | loopEnd + 1 => checksumCalculateStep (checksumCalculate state loopEnd) (loopEnd + 1)

/-- The all-zero accumulator over a given input view. -/
def zeroState (input : Nat → Nat) : CheckSumState :=
  { buffer := fun _ => 0, input := input }

/-- A concrete state for evaluating the functions: slot `i` holds `1000 * i + 7`,
`input[i]` is 0 for `1001 <= i <= 1006` and `3 * i + 1` elsewhere. -/
def sampleState : CheckSumState :=
  { buffer := fun i => 1000 * i.val + 7,
    input := fun i => if 1001 ≤ i ∧ i ≤ 1006 then 0 else 3 * i + 1 }

/-- State used to exhibit the lookahead of step 1007: zero accumulator, input
zero except `input[1007] = 1`. -/
def lookaheadState : CheckSumState :=
  { buffer := fun _ => 0, input := fun i => if i = 1007 then 1 else 0 }

/-- Body of the `y` loop of `bruteforceFile` up to the assertion on slot 12:
the four writes to `input[1003..1006]` and the steps 1003 to 1006.  The argument
is the state after `state = oldState`. -/
def compensationWindow (state : CheckSumState) (y : Nat) : CheckSumState :=
  let buffer12Compensate := sub32 (neg32 (state.buffer 12)) y
  let input := setInput state.input 1003 buffer12Compensate
  let input := setInput input 1004 y
  let input := setInput input 1005 0
  let input := setInput input 1006 0
  let state := { state with input := input }
  let state := checksumCalculateStep state 1003
  let state := checksumCalculateStep state 1004
  let state := checksumCalculateStep state 1005
  let state := checksumCalculateStep state 1006
  state

/-! ## Loading and writing the boot image -/

/-- The `u32` whose four bytes in memory, at increasing addresses, are `b0 b1 b2 b3`
(little-endian host). -/
def wordOfBytes (b0 b1 b2 b3 : Nat) : Nat :=
  b0 + b1 * 256 + b2 * 65536 + b3 * 16777216

/-- The four bytes in memory of a `u32`, at increasing addresses (little-endian host). -/
def bytesOfWord (w : Nat) : List Nat :=
  [w % 256, w / 256 % 256, w / 65536 % 256, w / 16777216 % 256]

/-- The words of a `u32` array filled by `fread` with the given bytes. -/
def readWords : List Nat → List Nat
  | b0 :: b1 :: b2 :: b3 :: rest => wordOfBytes b0 b1 b2 b3 :: readWords rest
  | _ => []

/-- The bytes `fwrite` emits for a `u32` array. -/
def writeWords : List Nat → List Nat
  | [] => []
  | w :: ws => bytesOfWord w ++ writeWords ws

/-- Loading in `bruteforceFile`: `fread` of `BOOTCODE_SIZE` bytes (failure when the
file is shorter), then `std::byteswap` on every word. -/
def loadBootcode (file : List Nat) : Option (List Nat) :=
  if file.length < BOOTCODE_SIZE then none
  else some ((readWords (file.take BOOTCODE_SIZE)).map byteswap)

/-- The function `writeOutBuffer`: `std::byteswap` on every word, then `fwrite` of the
swapped array; the result is the content of the written file. -/
def writeOutBuffer (bootcode : List Nat) : List Nat :=
  writeWords (bootcode.map byteswap)

/-- A file of 4096 bytes used to evaluate the loader: byte `i` is `(7 * i + 3) mod 256`. -/
def sampleFile : List Nat := (List.range 4096).map fun i => (7 * i + 3) % 256

/-! ## The search loops of `bruteforceFile` -/

def GPU_BATCH_COUNT : Nat := 128
def GPU_GROUP_SPLIT : Nat := 512

/-- The constant `GPU_GROUP_SIZE`, a `u32` product. -/
def GPU_GROUP_SIZE : Nat := mul32 GPU_GROUP_SPLIT GPU_GROUP_SPLIT

/-- The constant `GPU_STEP_SIZE`: a `u32` product, stored in a `u64`. -/
def GPU_STEP_SIZE : Nat := mul32 GPU_GROUP_SIZE GPU_BATCH_COUNT

/-- Default value of the parameter `seed` of `bruteforceFile`. -/
def DEFAULT_SEED : Nat := 0x9191

/-- Default value of the parameter `startLoop` of `bruteforceFile`. -/
def DEFAULT_START_LOOP : Nat := 0

/-- The value `loopStart` that `main` passes as `startLoop`, for a result `r` of
`rand()`. -/
def mainLoopStart (r : Nat) : Nat := r % 0xFFFFFFF

/-- Number of words of the input view: the image has `BOOTCODE_SIZE_WORDS` words and
the view starts at word `BOOTCODE_OFFSET / 4`. -/
def INPUT_WORDS : Nat := BOOTCODE_SIZE_WORDS - BOOTCODE_OFFSET / 4

/-- The dispatch loop `for(pushConst.offset = 1;;)` from a given offset: the offsets
bound for `program.run()`, in order.  The result is `none` when the fuel runs out
before the `break`. -/
def dispatchLoop : Nat → Nat → Option (List Nat)
  | 0, _ => none
  | fuel + 1, offset =>
    let newOffset := (offset + GPU_STEP_SIZE) % DWORD
    if newOffset > 0xFFFFFFFF then some [offset]
    else (dispatchLoop fuel (newOffset % WORD)).map fun rest => offset :: rest

/-- The input indices one call `checksumCalculateStep(state, loop)` reads: `dataLast`,
`data`, and `dataNext` unless `loop` is 1008. -/
def stepReadIndices (loop : Nat) : List Nat :=
  [if loop = 1 then 0 else sub32 loop 2, sub32 loop 1] ++ (if loop = 1008 then [] else [loop])

/-- The input indices `bruteforceFile` assigns to. -/
def bruteforceWriteIndices : List Nat :=
  [0, 1000, 1001, 1002, 1003, 1004, 1005, 1006, 1007]

/-- Body of the `inp1000` loop up to the snapshot `oldState`: `state = startingState`,
the writes to `input[1000..1002]` and `checksumCalculate(state, 1002)`. -/
def outerPrepare (startingBuffer : Fin 16 → Nat) (input : Nat → Nat) (inp1000 : Nat) :
    CheckSumState :=
  let input := setInput input 1000 inp1000
  let input := setInput input 1001 0
  let input := setInput input 1002 0
  checksumCalculate { buffer := startingBuffer, input := input } 1002

/-- Body of the `y` loop up to the transfer to the device: `state = oldState`, the
compensation window and the independent half of step 1007.  The buffer of the result
is what `buffInGPU.fromHost` sends. -/
def middlePrepare (oldBuffer : Fin 16 → Nat) (input : Nat → Nat) (y : Nat) : CheckSumState :=
  checksumCalculateStep_DataAndLastIsZero_1007_Indep
    (compensationWindow { buffer := oldBuffer, input := input } y)

/-- How a sweep ends: with a match (the input view then holds the match in
`input[1007]` and the image goes to `writeOutBuffer`), or with its range used up. -/
inductive Outcome where
  | found (input : Nat → Nat)
  | exhausted (input : Nat → Nat)

/-- The input view at the end of a sweep. -/
def Outcome.view : Outcome → Nat → Nat
  | Outcome.found input => input
  | Outcome.exhausted input => input

/-- The loop `for(u32 y=startLoop; y < 0xFFFF'FFFF; ++y)` from a given `y`.  The
parameter `device` stands for the compute backend: for the accumulator sent to it, the
flag `buffRes[0]` read back after the dispatch loop (zero when nothing matched).  The
result holds the values of `y` whose body ran, in order, and how the loop ended; it is
`none` when the fuel runs out. -/
def middleSweep (device : (Fin 16 → Nat) → Nat) (oldBuffer : Fin 16 → Nat) :
    Nat → (Nat → Nat) → Nat → Option (List Nat × Outcome)
  | 0, _, _ => none
  | fuel + 1, input, y =>
    if y < 0xFFFFFFFF then
      let state := middlePrepare oldBuffer input y
      let matchData1007 := device state.buffer
      if matchData1007 > 0 then
        some ([y], Outcome.found (setInput state.input 1007 matchData1007))
      else
        (middleSweep device oldBuffer fuel state.input (add32 y 1)).map
          fun r => (y :: r.1, r.2)
    else some ([], Outcome.exhausted input)

/-- The loop `for(u32 inp1000=0; inp1000<0xFFFF'FFFF; ++inp1000)` from a given
`inp1000`; `none` when the fuel runs out. -/
def outerSweep (device : (Fin 16 → Nat) → Nat) (startingBuffer : Fin 16 → Nat)
    (startLoop : Nat) : Nat → (Nat → Nat) → Nat → Option Outcome
  | 0, _, _ => none
  | fuel + 1, input, inp1000 =>
    if inp1000 < 0xFFFFFFFF then
      let state := outerPrepare startingBuffer input inp1000
      match middleSweep device state.buffer WORD state.input startLoop with
      | none => none
      | some (_, Outcome.found input') => some (Outcome.found input')
      | some (_, Outcome.exhausted input') =>
        outerSweep device startingBuffer startLoop fuel input' (add32 inp1000 1)
    else some (Outcome.exhausted input)

/-- The view `state.input = &bootcode[BOOTCODE_OFFSET / 4]` of an image. -/
def inputView (bootcode : List Nat) : Nat → Nat :=
  fun i => bootcode.getD (i + BOOTCODE_OFFSET / 4) 0

/-- The image after the writes made through the view: words below
`BOOTCODE_OFFSET / 4` as loaded, the others from the view. -/
def storeView (bootcode : List Nat) (input : Nat → Nat) : List Nat :=
  (List.range BOOTCODE_SIZE_WORDS).map fun j =>
    if j < BOOTCODE_OFFSET / 4 then bootcode.getD j 0 else input (j - BOOTCODE_OFFSET / 4)

/-- The search of `bruteforceFile` on a loaded image: the write to `input[0]`,
`checksumInit`, and the two nested sweeps.  The result is the image handed to
`writeOutBuffer` when a match is found, and `none` otherwise. -/
def bruteforceSearch (device : (Fin 16 → Nat) → Nat) (bootcode : List Nat)
    (seed startLoop : Nat) : Option (List Nat) :=
  let input := setInput (inputView bootcode) 0 (add32 (mul32 MAGIC_NUMBER (seed &&& 0xff)) 1)
  let state := checksumInit { buffer := fun _ => 0, input := input } seed
  let startingBuffer := state.buffer
  match outerSweep device startingBuffer startLoop WORD state.input 0 with
  | some (Outcome.found input') => some (storeView bootcode input')
  | _ => none

/-- The function `bruteforceFile` on the bytes of the file: the content written to
`match.z64`, or `none` when nothing is written. -/
def bruteforceFile (device : (Fin 16 → Nat) → Nat) (file : List Nat)
    (seed startLoop : Nat) : Option (List Nat) :=
  match loadBootcode file with
  | none => none
  | some bootcode => (bruteforceSearch device bootcode seed startLoop).map writeOutBuffer

/-! ## The same code over a bounded input view

Here the input view is an array of words, and an access outside it makes the
computation stop with a fault. -/

/-- The view of an array as a function of the index (0 outside the array). -/
def viewOf (input : List Nat) : Nat → Nat :=
  fun i => input.getD i 0

/-- The read `input[i]`: `none` when `i` lies outside the array. -/
def readInput (input : List Nat) (i : Nat) : Option Nat :=
  if i < input.length then some (input.getD i 0) else none

/-- The assignment `input[i] = v`: `none` when `i` lies outside the array. -/
def writeInput (input : List Nat) (i v : Nat) : Option (List Nat) :=
  if i < input.length then some (input.set i v) else none

/-- The function `checksumInit` with its read of `input[0]` checked. -/
def checksumInitChecked (input : List Nat) (seed : Nat) : Option (Fin 16 → Nat) :=
  let init := add32 (mul32 MAGIC_NUMBER (seed &&& 0xff)) 1
  (readInput input 0).bind fun data =>
  let init := init ^^^ data
  some fun _ => init

/-- The function `checksumCalculateStep` with each read of `state.input` checked, in
the order of the source: `dataLast`, `data`, and `dataNext` after the return for
`loop == 1008`. -/
def checksumCalculateStepChecked (buffer : Fin 16 → Nat) (input : List Nat) (loop : Nat) :
    Option (Fin 16 → Nat) :=
  (readInput input (if loop = 1 then 0 else sub32 loop 2)).bind fun dataLast =>
  (readInput input (sub32 loop 1)).bind fun data =>
  let b := buffer
  let b := setSlot b 0 (add32 (b 0) (hashMulDiff (sub32 1007 loop) data loop))
  let b := setSlot b 2 ((b 2) ^^^ data)
  let b := setSlot b 3 (add32 (b 3) (hashMulDiff (add32 data 5) MAGIC_NUMBER loop))
  let b := setSlot b 4 (add32 (b 4) (rotr32 data (dataLast &&& 0x1F)))
  let b := setSlot b 5 (add32 (b 5) (rotl32 data (dataLast >>> 27)))
  let b :=
    if data < b 6 then setSlot b 6 ((add32 (b 3) (b 6)) ^^^ (add32 data loop))
    else setSlot b 6 ((add32 (b 4) data) ^^^ (b 6))
  let b :=
    if dataLast < data then setSlot b 9 (hashMulDiff (b 9) data loop)
    else setSlot b 9 (add32 (b 9) data)
  if loop = 1008 then some b
  else
    (readInput input loop).bind fun dataNext =>
    let b := setSlot b 10 (hashMulDiff (add32 (b 10) data) dataNext loop)
    let b := setSlot b 11 (hashMulDiff ((b 11) ^^^ data) dataNext loop)
    let b := setSlot b 12 (add32 (b 12) data)
    let b := setSlot b 13
      (add32 (b 13) (add32 (rotr32 data (data &&& 0x1F)) (rotr32 dataNext (dataNext &&& 0x1F))))
    some b

/-- The function `checksumCalculate` over the checked step. -/
def checksumCalculateChecked (buffer : Fin 16 → Nat) (input : List Nat) :
    Nat → Option (Fin 16 → Nat)
  | 0 => some buffer
  | loopEnd + 1 =>
    (checksumCalculateChecked buffer input loopEnd).bind fun b =>
      checksumCalculateStepChecked b input (loopEnd + 1)

/-- Body of the `inp1000` loop up to the snapshot, with checked accesses: the new
accumulator and the array after the three writes. -/
def outerPrepareChecked (startingBuffer : Fin 16 → Nat) (input : List Nat) (inp1000 : Nat) :
    Option ((Fin 16 → Nat) × List Nat) :=
  (writeInput input 1000 inp1000).bind fun input =>
  (writeInput input 1001 0).bind fun input =>
  (writeInput input 1002 0).bind fun input =>
  (checksumCalculateChecked startingBuffer input 1002).bind fun b =>
  some (b, input)

/-- Body of the `y` loop up to the transfer to the device, with checked accesses: the
accumulator sent and the array after the four writes. -/
def middlePrepareChecked (oldBuffer : Fin 16 → Nat) (input : List Nat) (y : Nat) :
    Option ((Fin 16 → Nat) × List Nat) :=
  let buffer12Compensate := sub32 (neg32 (oldBuffer 12)) y
  (writeInput input 1003 buffer12Compensate).bind fun input =>
  (writeInput input 1004 y).bind fun input =>
  (writeInput input 1005 0).bind fun input =>
  (writeInput input 1006 0).bind fun input =>
  (checksumCalculateStepChecked oldBuffer input 1003).bind fun b =>
  (checksumCalculateStepChecked b input 1004).bind fun b =>
  (checksumCalculateStepChecked b input 1005).bind fun b =>
  (checksumCalculateStepChecked b input 1006).bind fun b =>
  some ((checksumCalculateStep_DataAndLastIsZero_1007_Indep
    { buffer := b, input := viewOf input }).buffer, input)

/-- How a checked sweep ends: as `Outcome`, or with an access outside the view, or
out of fuel. -/
inductive CheckedOutcome where
  | found (input : List Nat)
  | exhausted (input : List Nat)
  | fault
  | outOfFuel

/-- The loop over `y` with checked accesses. -/
def middleSweepChecked (device : (Fin 16 → Nat) → Nat) (oldBuffer : Fin 16 → Nat) :
    Nat → List Nat → Nat → CheckedOutcome
  | 0, _, _ => CheckedOutcome.outOfFuel
  | fuel + 1, input, y =>
    if y < 0xFFFFFFFF then
      match middlePrepareChecked oldBuffer input y with
      | none => CheckedOutcome.fault
      | some (buffer, input) =>
        let matchData1007 := device buffer
        if matchData1007 > 0 then
          match writeInput input 1007 matchData1007 with
          | none => CheckedOutcome.fault
          | some input => CheckedOutcome.found input
        else middleSweepChecked device oldBuffer fuel input (add32 y 1)
    else CheckedOutcome.exhausted input

/-- The loop over `inp1000` with checked accesses. -/
def outerSweepChecked (device : (Fin 16 → Nat) → Nat) (startingBuffer : Fin 16 → Nat)
    (startLoop : Nat) : Nat → List Nat → Nat → CheckedOutcome
  | 0, _, _ => CheckedOutcome.outOfFuel
  | fuel + 1, input, inp1000 =>
    if inp1000 < 0xFFFFFFFF then
      match outerPrepareChecked startingBuffer input inp1000 with
      | none => CheckedOutcome.fault
      | some (buffer, input) =>
        match middleSweepChecked device buffer WORD input startLoop with
        | CheckedOutcome.found input' => CheckedOutcome.found input'
        | CheckedOutcome.exhausted input' =>
          outerSweepChecked device startingBuffer startLoop fuel input' (add32 inp1000 1)
        | CheckedOutcome.fault => CheckedOutcome.fault
        | CheckedOutcome.outOfFuel => CheckedOutcome.outOfFuel
    else CheckedOutcome.exhausted input

/-- The search of `bruteforceFile` with checked accesses.  The view is the array
`bootcode` from word `BOOTCODE_OFFSET / 4` on; a result `found` or `exhausted` carries
the whole image. -/
def bruteforceSearchChecked (device : (Fin 16 → Nat) → Nat) (bootcode : List Nat)
    (seed startLoop : Nat) : CheckedOutcome :=
  let input := bootcode.drop (BOOTCODE_OFFSET / 4)
  match writeInput input 0 (add32 (mul32 MAGIC_NUMBER (seed &&& 0xff)) 1) with
  | none => CheckedOutcome.fault
  | some input =>
    match checksumInitChecked input seed with
    | none => CheckedOutcome.fault
    | some startingBuffer =>
      match outerSweepChecked device startingBuffer startLoop WORD input 0 with
      | CheckedOutcome.found input' =>
        CheckedOutcome.found (bootcode.take (BOOTCODE_OFFSET / 4) ++ input')
      | CheckedOutcome.exhausted input' =>
        CheckedOutcome.exhausted (bootcode.take (BOOTCODE_OFFSET / 4) ++ input')
      | CheckedOutcome.fault => CheckedOutcome.fault
      | CheckedOutcome.outOfFuel => CheckedOutcome.outOfFuel

/-- A checked outcome and the outcome of the sweep over the view say the same: the
same kind of end, over an array of 1008 words whose view is the input view. -/
def CheckedOutcome.Agrees : CheckedOutcome → Option Outcome → Prop
  | CheckedOutcome.found img, some (Outcome.found v) => img.length = 1008 ∧ viewOf img = v
  | CheckedOutcome.exhausted img, some (Outcome.exhausted v) =>
    img.length = 1008 ∧ viewOf img = v
  | CheckedOutcome.outOfFuel, none => True
  | _, _ => False

/-- Slots 1, 7, 8, 14 and 15 of an accumulator are zero. -/
def UnwrittenSlotsZero (buffer : Fin 16 → Nat) : Prop :=
  buffer 1 = 0 ∧ buffer 7 = 0 ∧ buffer 8 = 0 ∧ buffer 14 = 0 ∧ buffer 15 = 0

/-- Sum modulo `2^32` of the input words `input[0..n-1]`. -/
def sumWords (input : Nat → Nat) : Nat → Nat
  | 0 => 0
  | n + 1 => (sumWords input n + input n) % 2 ^ 32

/-- Exclusive or of the input words `input[0..n-1]`. -/
def xorWords (input : Nat → Nat) : Nat → Nat
  | 0 => 0
  | n + 1 => xorWords input n ^^^ input n

/-! ## Reference formulas, following the specification text -/

/-- Reference transition of one step on the slots 2-6 and 9-13, slot by slot in terms
of the old accumulator `old`, the words `dataLast`, `data`, `dataNext` and the step
index; every other slot is returned as it is. -/
def referenceStepSlot (old : Fin 16 → Nat) (dataLast data dataNext stepIndex : Nat)
    (slot : Fin 16) : Nat :=
  let slot3 := (old 3 + hashMulDiff ((data + 5) % 2 ^ 32) MAGIC_NUMBER stepIndex) % 2 ^ 32
  let slot4 := (old 4 + rotr32 data (dataLast &&& 0x1F)) % 2 ^ 32
  match slot.val with
  | 2 => old 2 ^^^ data
  | 3 => slot3
  | 4 => slot4
  | 5 => (old 5 + rotl32 data (dataLast >>> 27)) % 2 ^ 32
  | 6 =>
    if data < old 6 then ((slot3 + old 6) % 2 ^ 32) ^^^ ((data + stepIndex) % 2 ^ 32)
    else ((slot4 + data) % 2 ^ 32) ^^^ old 6
  | 9 => if dataLast < data then hashMulDiff (old 9) data stepIndex else (old 9 + data) % 2 ^ 32
  | 10 => hashMulDiff ((old 10 + data) % 2 ^ 32) dataNext stepIndex
  | 11 => hashMulDiff (old 11 ^^^ data) dataNext stepIndex
  | 12 => (old 12 + data) % 2 ^ 32
  | 13 =>
    (old 13 + rotr32 data (data &&& 0x1F) + rotr32 dataNext (dataNext &&& 0x1F)) % 2 ^ 32
  | _ => old slot

/-- The value `diff` of `mulDiff(base, a, b)` in the specification text: with `a`
replaced by `b` when it is zero, the high 32 bits minus the low 32 bits of the 64-bit
product, modulo `2^32`. -/
def referenceDiff (base a b : Nat) : Nat :=
  let a' := if a = 0 then b else a
  let prod := (base * a') % 2 ^ 64
  (prod / 2 ^ 32 + (2 ^ 32 - prod % 2 ^ 32)) % 2 ^ 32

/-! ## Basic facts about the step function -/

theorem fin16_cases (i : Fin 16) :
    i = 0 ∨ i = 1 ∨ i = 2 ∨ i = 3 ∨ i = 4 ∨ i = 5 ∨ i = 6 ∨ i = 7 ∨ i = 8 ∨ i = 9 ∨
      i = 10 ∨ i = 11 ∨ i = 12 ∨ i = 13 ∨ i = 14 ∨ i = 15 := by
  revert i
  decide

theorem setSlot_same (b : Fin 16 → Nat) (i : Fin 16) (v : Nat) : setSlot b i v i = v := by
  simp [setSlot]

theorem setSlot_other (b : Fin 16 → Nat) (i j : Fin 16) (v : Nat) (h : j ≠ i) :
    setSlot b i v j = b j := by
  simp [setSlot, h]

theorem checksumCalculateStep_input (state : CheckSumState) (loop : Nat) :
    (checksumCalculateStep state loop).input = state.input := by
  simp only [checksumCalculateStep]
  split_ifs <;> rfl

theorem checksumCalculateStep_frame (state : CheckSumState) (loop : Nat) (i : Fin 16)
    (h : i = 1 ∨ i = 7 ∨ i = 8 ∨ i = 14 ∨ i = 15) :
    (checksumCalculateStep state loop).buffer i = state.buffer i := by
  by_cases h8 : loop = 1008 <;>
  rcases h with h | h | h | h | h <;> subst h <;>
  simp only [checksumCalculateStep, setSlot, h8, ite_apply, if_true, if_false] <;>
  simp

theorem checksumCalculateStep_slot0 (state : CheckSumState) (loop : Nat) :
    (checksumCalculateStep state loop).buffer 0
      = add32 (state.buffer 0)
          (hashMulDiff (sub32 1007 loop) (state.input (sub32 loop 1)) loop) := by
  by_cases h : loop = 1008 <;>
  simp only [checksumCalculateStep, setSlot, h, ite_apply, if_true, if_false] <;>
  simp

theorem checksumCalculateStep_slot2 (state : CheckSumState) (loop : Nat) :
    (checksumCalculateStep state loop).buffer 2
      = state.buffer 2 ^^^ state.input (sub32 loop 1) := by
  by_cases h : loop = 1008 <;>
  simp only [checksumCalculateStep, setSlot, h, ite_apply, if_true, if_false] <;>
  simp

theorem checksumCalculateStep_slot3 (state : CheckSumState) (loop : Nat) :
    (checksumCalculateStep state loop).buffer 3
      = add32 (state.buffer 3)
          (hashMulDiff (add32 (state.input (sub32 loop 1)) 5) MAGIC_NUMBER loop) := by
  by_cases h : loop = 1008 <;>
  simp only [checksumCalculateStep, setSlot, h, ite_apply, if_true, if_false] <;>
  simp

theorem checksumCalculateStep_slot4 (state : CheckSumState) (loop : Nat) :
    (checksumCalculateStep state loop).buffer 4
      = add32 (state.buffer 4)
          (rotr32 (state.input (sub32 loop 1))
            (state.input (if loop = 1 then 0 else sub32 loop 2) &&& 0x1F)) := by
  by_cases h : loop = 1008 <;>
  simp only [checksumCalculateStep, setSlot, h, ite_apply, if_true, if_false] <;>
  simp

theorem checksumCalculateStep_slot5 (state : CheckSumState) (loop : Nat) :
    (checksumCalculateStep state loop).buffer 5
      = add32 (state.buffer 5)
          (rotl32 (state.input (sub32 loop 1))
            (state.input (if loop = 1 then 0 else sub32 loop 2) >>> 27)) := by
  by_cases h : loop = 1008 <;>
  simp only [checksumCalculateStep, setSlot, h, ite_apply, if_true, if_false] <;>
  simp

theorem checksumCalculateStep_slot6 (state : CheckSumState) (loop : Nat) :
    (checksumCalculateStep state loop).buffer 6
      = if state.input (sub32 loop 1) < state.buffer 6 then
          add32
              (add32 (state.buffer 3)
                (hashMulDiff (add32 (state.input (sub32 loop 1)) 5) MAGIC_NUMBER loop))
              (state.buffer 6)
            ^^^ add32 (state.input (sub32 loop 1)) loop
        else
          add32
              (add32 (state.buffer 4)
                (rotr32 (state.input (sub32 loop 1))
                  (state.input (if loop = 1 then 0 else sub32 loop 2) &&& 0x1F)))
              (state.input (sub32 loop 1))
            ^^^ state.buffer 6 := by
  by_cases h : loop = 1008 <;>
  simp only [checksumCalculateStep, setSlot, h, ite_apply, if_true, if_false] <;>
  simp

theorem checksumCalculateStep_slot9 (state : CheckSumState) (loop : Nat) :
    (checksumCalculateStep state loop).buffer 9
      = if state.input (if loop = 1 then 0 else sub32 loop 2) < state.input (sub32 loop 1) then
          hashMulDiff (state.buffer 9) (state.input (sub32 loop 1)) loop
        else add32 (state.buffer 9) (state.input (sub32 loop 1)) := by
  by_cases h : loop = 1008 <;>
  simp only [checksumCalculateStep, setSlot, h, ite_apply, if_true, if_false] <;>
  simp

theorem checksumCalculateStep_slot10 (state : CheckSumState) (loop : Nat) (h : loop ≠ 1008) :
    (checksumCalculateStep state loop).buffer 10
      = hashMulDiff (add32 (state.buffer 10) (state.input (sub32 loop 1)))
          (state.input loop) loop := by
  simp only [checksumCalculateStep, setSlot, h, ite_apply, if_true, if_false]
  simp

theorem checksumCalculateStep_slot11 (state : CheckSumState) (loop : Nat) (h : loop ≠ 1008) :
    (checksumCalculateStep state loop).buffer 11
      = hashMulDiff (state.buffer 11 ^^^ state.input (sub32 loop 1))
          (state.input loop) loop := by
  simp only [checksumCalculateStep, setSlot, h, ite_apply, if_true, if_false]
  simp

theorem checksumCalculateStep_slot12 (state : CheckSumState) (loop : Nat) (h : loop ≠ 1008) :
    (checksumCalculateStep state loop).buffer 12
      = add32 (state.buffer 12) (state.input (sub32 loop 1)) := by
  simp only [checksumCalculateStep, setSlot, h, ite_apply, if_true, if_false]
  simp

theorem checksumCalculateStep_slot13 (state : CheckSumState) (loop : Nat) (h : loop ≠ 1008) :
    (checksumCalculateStep state loop).buffer 13
      = add32 (state.buffer 13)
          (add32 (rotr32 (state.input (sub32 loop 1)) (state.input (sub32 loop 1) &&& 0x1F))
            (rotr32 (state.input loop) (state.input loop &&& 0x1F))) := by
  simp only [checksumCalculateStep, setSlot, h, ite_apply, if_true, if_false]
  simp

theorem checksumCalculateStep_last (state : CheckSumState) (i : Fin 16)
    (h : i = 10 ∨ i = 11 ∨ i = 12 ∨ i = 13) :
    (checksumCalculateStep state 1008).buffer i = state.buffer i := by
  rcases h with h | h | h | h <;> subst h <;>
  simp only [checksumCalculateStep, setSlot, ite_apply, if_true, if_false] <;>
  simp

/-! ## Word arithmetic facts -/

theorem add32_zero_right (x : Nat) (h : x < WORD) : add32 x 0 = x := by
  simp only [add32, WORD] at *
  omega

theorem add32_zero_left (x : Nat) (h : x < WORD) : add32 0 x = x := by
  simp only [add32, WORD] at *
  omega

theorem add32_add32_zero_left (a x : Nat) : add32 a (add32 0 x) = add32 a x := by
  simp only [add32, WORD]
  omega

theorem hashMulDiff_zero_base (a b : Nat) : hashMulDiff 0 a b = 0 := by
  simp [hashMulDiff, sub32, WORD, DWORD]

theorem rotr32_zero (s : Nat) : rotr32 0 s = 0 := by
  simp [rotr32]

theorem rotl32_zero (s : Nat) : rotl32 0 s = 0 := by
  simp [rotl32]

/-! ## The independent half of step 1007 -/

theorem indep1007_input (state : CheckSumState) :
    (checksumCalculateStep_DataAndLastIsZero_1007_Indep state).input = state.input := by
  simp only [checksumCalculateStep_DataAndLastIsZero_1007_Indep]

theorem indep1007_slot3 (state : CheckSumState) :
    (checksumCalculateStep_DataAndLastIsZero_1007_Indep state).buffer 3
      = add32 (state.buffer 3) (hashMulDiff 5 MAGIC_NUMBER 1007) := by
  simp only [checksumCalculateStep_DataAndLastIsZero_1007_Indep, setSlot, ite_apply]
  simp

theorem indep1007_slot6 (state : CheckSumState) :
    (checksumCalculateStep_DataAndLastIsZero_1007_Indep state).buffer 6
      = if 0 < state.buffer 6 then
          add32 (add32 (state.buffer 3) (hashMulDiff 5 MAGIC_NUMBER 1007)) (state.buffer 6)
            ^^^ 1007
        else state.buffer 4 ^^^ state.buffer 6 := by
  simp only [checksumCalculateStep_DataAndLastIsZero_1007_Indep, setSlot, ite_apply]
  simp

theorem indep1007_other (state : CheckSumState) (i : Fin 16) (h3 : i ≠ 3) (h6 : i ≠ 6) :
    (checksumCalculateStep_DataAndLastIsZero_1007_Indep state).buffer i = state.buffer i := by
  simp only [checksumCalculateStep_DataAndLastIsZero_1007_Indep, setSlot, ite_apply]
  simp [h3, h6]

/-- C2, as stated, fails: with `input[1005] = input[1006] = 0` and `input[1007] = 1`
on the zero accumulator, the generic step 1007 puts `0x80000000` in slot 13, the
independent tail step leaves 0 there, so the two accumulators differ. -/
theorem indep1007_not_identical :
    BufferInRange lookaheadState.buffer ∧ lookaheadState.input 1005 = 0 ∧
      lookaheadState.input 1006 = 0 ∧
      (checksumCalculateStep lookaheadState 1007).buffer 13 = 0x80000000 ∧
      (checksumCalculateStep_DataAndLastIsZero_1007_Indep lookaheadState).buffer 13 = 0 ∧
      (checksumCalculateStep_DataAndLastIsZero_1007_Indep lookaheadState).buffer
        ≠ (checksumCalculateStep lookaheadState 1007).buffer := by
  refine ⟨fun i => by simp [lookaheadState, WORD], by decide, by decide, by decide, by decide, ?_⟩
  intro h
  exact absurd (congrFun h 13) (by decide)

/-- C2, amended: for an accumulator of 32-bit words and `input[1005] = input[1006] = 0`,
the independent tail step agrees with the generic step 1007 on every slot other than
10, 11 and 13; it leaves those three unchanged, while the generic step sets them from
the lookahead word `input[1007]`. -/
theorem indep1007_agrees_off_lookahead (state : CheckSumState)
    (hb : BufferInRange state.buffer)
    (h1005 : state.input 1005 = 0) (h1006 : state.input 1006 = 0) :
    (∀ i : Fin 16, i ≠ 10 → i ≠ 11 → i ≠ 13 →
        (checksumCalculateStep_DataAndLastIsZero_1007_Indep state).buffer i
          = (checksumCalculateStep state 1007).buffer i) ∧
      (∀ i : Fin 16, i = 10 ∨ i = 11 ∨ i = 13 →
        (checksumCalculateStep_DataAndLastIsZero_1007_Indep state).buffer i
          = state.buffer i) ∧
      (checksumCalculateStep state 1007).buffer 10
        = hashMulDiff (state.buffer 10) (state.input 1007) 1007 ∧
      (checksumCalculateStep state 1007).buffer 11
        = hashMulDiff (state.buffer 11) (state.input 1007) 1007 ∧
      (checksumCalculateStep state 1007).buffer 13
        = add32 (state.buffer 13)
            (rotr32 (state.input 1007) (state.input 1007 &&& 0x1F)) := by
  have e1 : sub32 1007 1 = 1006 := by decide
  have e2 : sub32 1007 2 = 1005 := by decide
  have e0 : sub32 1007 1007 = 0 := by decide
  have n1 : (1007 : Nat) ≠ 1 := by decide
  have n8 : (1007 : Nat) ≠ 1008 := by decide
  have a5 : add32 0 5 = 5 := by decide
  have a7 : add32 0 1007 = 1007 := by decide
  have z := fun i => add32_zero_right (state.buffer i) (hb i)
  refine ⟨?_, ?_, ?_, ?_, ?_⟩
  · intro i h10 h11 h13
    rcases fin16_cases i with h | h | h | h | h | h | h | h | h | h | h | h | h | h | h | h <;>
      subst h
    · rw [indep1007_other _ _ (by decide) (by decide), checksumCalculateStep_slot0]
      simp [e0, hashMulDiff_zero_base, z]
    · rw [indep1007_other _ _ (by decide) (by decide),
        checksumCalculateStep_frame _ _ _ (by decide)]
    · rw [indep1007_other _ _ (by decide) (by decide), checksumCalculateStep_slot2]
      simp [e1, h1006]
    · rw [indep1007_slot3, checksumCalculateStep_slot3]
      simp [e1, h1006, a5]
    · rw [indep1007_other _ _ (by decide) (by decide), checksumCalculateStep_slot4]
      simp [e1, h1006, rotr32_zero, z]
    · rw [indep1007_other _ _ (by decide) (by decide), checksumCalculateStep_slot5]
      simp [e1, h1006, rotl32_zero, z]
    · rw [indep1007_slot6, checksumCalculateStep_slot6]
      simp [e1, h1006, rotr32_zero, z, a5, a7]
    · rw [indep1007_other _ _ (by decide) (by decide),
        checksumCalculateStep_frame _ _ _ (by decide)]
    · rw [indep1007_other _ _ (by decide) (by decide),
        checksumCalculateStep_frame _ _ _ (by decide)]
    · rw [indep1007_other _ _ (by decide) (by decide), checksumCalculateStep_slot9]
      simp [e1, e2, h1005, h1006, z]
    · exact absurd rfl h10
    · exact absurd rfl h11
    · rw [indep1007_other _ _ (by decide) (by decide),
        checksumCalculateStep_slot12 _ _ n8]
      simp [e1, h1006, z]
    · exact absurd rfl h13
    · rw [indep1007_other _ _ (by decide) (by decide),
        checksumCalculateStep_frame _ _ _ (by decide)]
    · rw [indep1007_other _ _ (by decide) (by decide),
        checksumCalculateStep_frame _ _ _ (by decide)]
  · intro i h
    rcases h with h | h | h <;> subst h <;>
      exact indep1007_other _ _ (by decide) (by decide)
  · rw [checksumCalculateStep_slot10 _ _ n8]
    simp [e1, h1006, z]
  · rw [checksumCalculateStep_slot11 _ _ n8]
    simp [e1, h1006]
  · rw [checksumCalculateStep_slot13 _ _ n8]
    simp [e1, h1006, rotr32_zero, add32_add32_zero_left]

theorem indep1007_agrees_off_lookahead_witness :
    BufferInRange sampleState.buffer ∧ sampleState.input 1005 = 0 ∧
      sampleState.input 1006 = 0 ∧
      (checksumCalculateStep_DataAndLastIsZero_1007_Indep sampleState).buffer 6
        = (checksumCalculateStep sampleState 1007).buffer 6 :=
  have hb : BufferInRange sampleState.buffer := by
    intro i
    revert i
    decide
  ⟨hb, by decide, by decide,
    (indep1007_agrees_off_lookahead sampleState hb (by decide) (by decide)).1 6
      (by decide) (by decide) (by decide)⟩

/-! ## Compensation window -/

/-- C1: with `input[1002] = 0`, writing the compensating word `(0 - S - y) mod 2^32`
to `input[1003]`, the probe `y` to `input[1004]`, zero to `input[1005]` and
`input[1006]`, and running the steps 1003, 1004, 1005, 1006 leaves slot 12 of the
accumulator equal to 0, so the assertion after the window holds. -/
theorem compensationWindow_slot12_zero (state : CheckSumState) (y : Nat)
    (h1002 : state.input 1002 = 0) :
    (compensationWindow state y).buffer 12 = 0 := by
  have e3 : sub32 1003 1 = 1002 := by decide
  have e4 : sub32 1004 1 = 1003 := by decide
  have e5 : sub32 1005 1 = 1004 := by decide
  have e6 : sub32 1006 1 = 1005 := by decide
  simp only [compensationWindow, checksumCalculateStep_input,
    checksumCalculateStep_slot12 _ 1003 (by decide),
    checksumCalculateStep_slot12 _ 1004 (by decide),
    checksumCalculateStep_slot12 _ 1005 (by decide),
    checksumCalculateStep_slot12 _ 1006 (by decide), e3, e4, e5, e6]
  simp only [setInput]
  norm_num [h1002]
  simp only [add32, sub32, neg32, WORD]
  omega

theorem compensationWindow_slot12_zero_witness :
    sampleState.input 1002 = 0 ∧ (compensationWindow sampleState 4000000000).buffer 12 = 0 :=
  ⟨by decide, compensationWindow_slot12_zero sampleState 4000000000 (by decide)⟩

/-! ## Slots that no step writes -/

theorem checksumCalculate_frame (state : CheckSumState) (loopEnd : Nat) (i : Fin 16)
    (h : i = 1 ∨ i = 7 ∨ i = 8 ∨ i = 14 ∨ i = 15) :
    (checksumCalculate state loopEnd).buffer i = state.buffer i := by
  induction loopEnd with
  | zero => rfl
  | succ n ih =>
    show (checksumCalculateStep (checksumCalculate state n) (n + 1)).buffer i = state.buffer i
    rw [checksumCalculateStep_frame _ _ _ h, ih]

/-- C3: every `checksumCalculateStep` (any step index, any input) leaves slots 1, 7, 8,
14 and 15 unchanged, and after the full 1008 steps from the all-zero accumulator these
five slots are 0, whatever the input. -/
theorem unwritten_slots_stay_zero (state : CheckSumState) (input : Nat → Nat) (loop : Nat) :
    ((checksumCalculateStep state loop).buffer 1 = state.buffer 1 ∧
      (checksumCalculateStep state loop).buffer 7 = state.buffer 7 ∧
      (checksumCalculateStep state loop).buffer 8 = state.buffer 8 ∧
      (checksumCalculateStep state loop).buffer 14 = state.buffer 14 ∧
      (checksumCalculateStep state loop).buffer 15 = state.buffer 15) ∧
    ((checksumCalculate (zeroState input) 1008).buffer 1 = 0 ∧
      (checksumCalculate (zeroState input) 1008).buffer 7 = 0 ∧
      (checksumCalculate (zeroState input) 1008).buffer 8 = 0 ∧
      (checksumCalculate (zeroState input) 1008).buffer 14 = 0 ∧
      (checksumCalculate (zeroState input) 1008).buffer 15 = 0) := by
  refine ⟨⟨?_, ?_, ?_, ?_, ?_⟩, ⟨?_, ?_, ?_, ?_, ?_⟩⟩
  · exact checksumCalculateStep_frame _ _ _ (by decide)
  · exact checksumCalculateStep_frame _ _ _ (by decide)
  · exact checksumCalculateStep_frame _ _ _ (by decide)
  · exact checksumCalculateStep_frame _ _ _ (by decide)
  · exact checksumCalculateStep_frame _ _ _ (by decide)
  · exact checksumCalculate_frame _ _ _ (by decide)
  · exact checksumCalculate_frame _ _ _ (by decide)
  · exact checksumCalculate_frame _ _ _ (by decide)
  · exact checksumCalculate_frame _ _ _ (by decide)
  · exact checksumCalculate_frame _ _ _ (by decide)

/-! ## Slot 0 -/

theorem sub32_of_le (a b : Nat) (ha : a < WORD) (hb : b ≤ a) : sub32 a b = a - b := by
  simp only [sub32, WORD] at *
  omega

/-- C4, as stated, fails: at step 1007 on the zero accumulator and zero input the code
adds `hashMulDiff(0, 0, 1007) = 0` to slot 0, whereas `hashMulDiff(1008 - 1007, 0, 1007)`
is `0xFFFFFC11`. -/
theorem slot0_base_is_not_1008_minus_step :
    (1 ≤ 1007 ∧ 1007 ≤ 1008) ∧
      (checksumCalculateStep (zeroState fun _ => 0) 1007).buffer 0 = 0 ∧
      add32 ((zeroState fun _ => 0).buffer 0)
          (hashMulDiff (1008 - 1007) ((zeroState fun _ => 0).input (1007 - 1)) 1007)
        = 0xFFFFFC11 ∧
      (checksumCalculateStep (zeroState fun _ => 0) 1007).buffer 0
        ≠ add32 ((zeroState fun _ => 0).buffer 0)
            (hashMulDiff (1008 - 1007) ((zeroState fun _ => 0).input (1007 - 1)) 1007) := by
  refine ⟨by decide, by decide, by decide, by decide⟩

/-- C4, amended: for a step index in 1..1008 with `data = input[stepIndex-1]`, the step
adds `hashMulDiff(base, data, stepIndex)` to slot 0 (mod 2^32), where `base` is
`1007 - stepIndex` as a `u32`: `1007 - stepIndex` for `stepIndex <= 1007` and
`0xFFFFFFFF` for `stepIndex = 1008`. -/
theorem slot0_adds_hashMulDiff_of_1007_minus_step (state : CheckSumState) (loop : Nat)
    (h1 : 1 ≤ loop) (h2 : loop ≤ 1008) :
    (checksumCalculateStep state loop).buffer 0
      = (state.buffer 0
          + hashMulDiff (if loop ≤ 1007 then 1007 - loop else 0xFFFFFFFF)
              (state.input (loop - 1)) loop) % 2 ^ 32 := by
  have e1 : sub32 loop 1 = loop - 1 := sub32_of_le loop 1 (by simp only [WORD]; omega) h1
  have e2 : sub32 1007 loop = if loop ≤ 1007 then 1007 - loop else 0xFFFFFFFF := by
    split_ifs with h
    · exact sub32_of_le 1007 loop (by decide) h
    · have : loop = 1008 := by omega
      subst this
      decide
  rw [checksumCalculateStep_slot0, e1, e2]
  rfl

theorem slot0_adds_hashMulDiff_of_1007_minus_step_witness :
    (1 ≤ 1008 ∧ 1008 ≤ 1008) ∧
      (checksumCalculateStep sampleState 1008).buffer 0
        = (sampleState.buffer 0
            + hashMulDiff (if 1008 ≤ 1007 then 1007 - 1008 else 0xFFFFFFFF)
                (sampleState.input (1008 - 1)) 1008) % 2 ^ 32 :=
  ⟨by decide,
    slot0_adds_hashMulDiff_of_1007_minus_step sampleState 1008 (by decide) (by decide)⟩

/-! ## The step against the reference formulas -/

theorem sub32_two (loop : Nat) (h1 : 1 ≤ loop) (h2 : loop ≤ 1008) :
    (if loop = 1 then 0 else sub32 loop 2) = (if loop = 1 then 0 else loop - 2) := by
  split_ifs with h
  · rfl
  · exact sub32_of_le loop 2 (by simp only [WORD]; omega) (by omega)

theorem add32_assoc_mod (a b c : Nat) : add32 a (add32 b c) = (a + b + c) % 2 ^ 32 := by
  simp only [add32, WORD]
  omega

/-- C5: for a step index in 1..1007, with `data = input[stepIndex-1]`,
`dataLast = input[stepIndex-2]` (`input[0]` when the index is 1) and
`dataNext = input[stepIndex]`, the step function gives on each of the slots 2, 3, 4, 5,
6, 9, 10, 11, 12 and 13 the value of the reference transition. -/
theorem step_matches_reference (state : CheckSumState) (loop : Nat)
    (h1 : 1 ≤ loop) (h2 : loop ≤ 1007) (slot : Fin 16)
    (hs : slot = 2 ∨ slot = 3 ∨ slot = 4 ∨ slot = 5 ∨ slot = 6 ∨ slot = 9 ∨ slot = 10 ∨
      slot = 11 ∨ slot = 12 ∨ slot = 13) :
    (checksumCalculateStep state loop).buffer slot
      = referenceStepSlot state.buffer
          (state.input (if loop = 1 then 0 else loop - 2))
          (state.input (loop - 1)) (state.input loop) loop slot := by
  have e1 : sub32 loop 1 = loop - 1 := sub32_of_le loop 1 (by simp only [WORD]; omega) h1
  have e2 := sub32_two loop h1 (by omega)
  have n8 : loop ≠ 1008 := by omega
  rcases hs with h | h | h | h | h | h | h | h | h | h <;> subst h
  · rw [checksumCalculateStep_slot2, e1]; rfl
  · rw [checksumCalculateStep_slot3, e1]; rfl
  · rw [checksumCalculateStep_slot4, e1, e2]; rfl
  · rw [checksumCalculateStep_slot5, e1, e2]; rfl
  · rw [checksumCalculateStep_slot6, e1, e2]; rfl
  · rw [checksumCalculateStep_slot9, e1, e2]; rfl
  · rw [checksumCalculateStep_slot10 _ _ n8, e1]; rfl
  · rw [checksumCalculateStep_slot11 _ _ n8, e1]; rfl
  · rw [checksumCalculateStep_slot12 _ _ n8, e1]; rfl
  · rw [checksumCalculateStep_slot13 _ _ n8, e1, add32_assoc_mod]; rfl

theorem step_matches_reference_witness :
    (1 ≤ 1000 ∧ 1000 ≤ 1007) ∧
      (checksumCalculateStep sampleState 1000).buffer 6
        = referenceStepSlot sampleState.buffer
            (sampleState.input (if 1000 = 1 then 0 else 1000 - 2))
            (sampleState.input (1000 - 1)) (sampleState.input 1000) 1000 6 :=
  ⟨by decide,
    step_matches_reference sampleState 1000 (by decide) (by decide) 6 (by decide)⟩

/-! ## The terminal step -/

/-- C6: the step 1008 leaves slots 10, 11, 12 and 13 unchanged, its result does not
depend on `input[1008]` (overwriting that word with any `v` changes nothing), and slots
0, 2, 3, 4, 5, 6 and 9 are updated by the formulas of every other step, with
`data = input[1007]` and `dataLast = input[1006]` (for any `dataNext`). -/
theorem terminal_step_short_circuit (state : CheckSumState) (v dataNext : Nat) :
    ((checksumCalculateStep state 1008).buffer 10 = state.buffer 10 ∧
      (checksumCalculateStep state 1008).buffer 11 = state.buffer 11 ∧
      (checksumCalculateStep state 1008).buffer 12 = state.buffer 12 ∧
      (checksumCalculateStep state 1008).buffer 13 = state.buffer 13) ∧
    (checksumCalculateStep { state with input := setInput state.input 1008 v } 1008).buffer
      = (checksumCalculateStep state 1008).buffer ∧
    (checksumCalculateStep state 1008).buffer 0
      = (state.buffer 0 + hashMulDiff 0xFFFFFFFF (state.input 1007) 1008) % 2 ^ 32 ∧
    ((checksumCalculateStep state 1008).buffer 2
        = referenceStepSlot state.buffer (state.input 1006) (state.input 1007) dataNext 1008 2 ∧
      (checksumCalculateStep state 1008).buffer 3
        = referenceStepSlot state.buffer (state.input 1006) (state.input 1007) dataNext 1008 3 ∧
      (checksumCalculateStep state 1008).buffer 4
        = referenceStepSlot state.buffer (state.input 1006) (state.input 1007) dataNext 1008 4 ∧
      (checksumCalculateStep state 1008).buffer 5
        = referenceStepSlot state.buffer (state.input 1006) (state.input 1007) dataNext 1008 5 ∧
      (checksumCalculateStep state 1008).buffer 6
        = referenceStepSlot state.buffer (state.input 1006) (state.input 1007) dataNext 1008 6 ∧
      (checksumCalculateStep state 1008).buffer 9
        = referenceStepSlot state.buffer (state.input 1006) (state.input 1007) dataNext 1008
            9) := by
  have e1 : sub32 1008 1 = 1007 := by decide
  have e2 : (if 1008 = 1 then 0 else sub32 1008 2) = 1006 := by decide
  have e0 : sub32 1007 1008 = 0xFFFFFFFF := by decide
  refine ⟨⟨?_, ?_, ?_, ?_⟩, ?_, ?_, ?_, ?_, ?_, ?_, ?_, ?_⟩
  · exact checksumCalculateStep_last _ _ (by decide)
  · exact checksumCalculateStep_last _ _ (by decide)
  · exact checksumCalculateStep_last _ _ (by decide)
  · exact checksumCalculateStep_last _ _ (by decide)
  · simp only [checksumCalculateStep, e1, e2, setInput]
    simp
  · rw [checksumCalculateStep_slot0, e1, e0]; rfl
  · rw [checksumCalculateStep_slot2, e1]; rfl
  · rw [checksumCalculateStep_slot3, e1]; rfl
  · rw [checksumCalculateStep_slot4, e1, e2]; rfl
  · rw [checksumCalculateStep_slot5, e1, e2]; rfl
  · rw [checksumCalculateStep_slot6, e1, e2]; rfl
  · rw [checksumCalculateStep_slot9, e1, e2]; rfl

/-! ## The function hashMulDiff -/

theorem hashMulDiff_eq_reference (base a b : Nat) :
    hashMulDiff base a b
      = if referenceDiff base a b = 0 then base else referenceDiff base a b := by
  have key : ∀ p : Nat,
      sub32 ((p >>> 32) % WORD) (p % WORD) = (p / 2 ^ 32 + (2 ^ 32 - p % 2 ^ 32)) % 2 ^ 32 := by
    intro p
    simp only [sub32, WORD, Nat.shiftRight_eq_div_pow]
    norm_num
  simp only [hashMulDiff, referenceDiff, key, DWORD]
  norm_num

/-- C7: a zero `factorA` is replaced by `factorB`, so
`hashMulDiff(base, 0, b) = hashMulDiff(base, b, b)` for all `base` and `b`. -/
theorem hashMulDiff_zero_substitution (base b : Nat) :
    hashMulDiff base 0 b = hashMulDiff base b b := by
  simp [hashMulDiff]

/-- C8: `hashMulDiff(0, a, b) = 0`; for `base != 0` the function returns `base` when
the difference of the high and low halves of the product is zero and that difference
otherwise; hence the result is 0 exactly when `base = 0`. -/
theorem hashMulDiff_result (base a b : Nat) :
    hashMulDiff 0 a b = 0 ∧
      (base ≠ 0 →
        (referenceDiff base a b = 0 → hashMulDiff base a b = base) ∧
        (referenceDiff base a b ≠ 0 → hashMulDiff base a b = referenceDiff base a b)) ∧
      (hashMulDiff base a b = 0 ↔ base = 0) := by
  refine ⟨hashMulDiff_zero_base a b, ?_, ?_⟩
  · intro _
    rw [hashMulDiff_eq_reference]
    exact ⟨fun h => if_pos h, fun h => if_neg h⟩
  · constructor
    · intro h
      rw [hashMulDiff_eq_reference] at h
      split_ifs at h with hd
      · exact h
      · exact absurd h hd
    · intro h
      subst h
      exact hashMulDiff_zero_base a b

theorem hashMulDiff_result_witness :
    (641 : Nat) ≠ 0 ∧ referenceDiff 641 6700417 9 = 0 ∧ hashMulDiff 641 6700417 9 = 641 :=
  ⟨by decide, by decide,
    ((hashMulDiff_result 641 6700417 9).2.1 (by decide)).1 (by decide)⟩

/-! ## Seed mixing -/

/-- C9: `checksumInit` puts the one value
`((MAGIC_NUMBER * (seed & 0xff) + 1) mod 2^32) XOR input[0]` in each of the 16 slots,
with `MAGIC_NUMBER = 0x6c078965`; it keeps the input, and two seeds with the same low
byte give the same accumulator. -/
theorem checksumInit_broadcast (state : CheckSumState) (seed seed' : Nat) :
    (∀ i : Fin 16, (checksumInit state seed).buffer i
        = ((0x6c078965 * (seed &&& 0xff) + 1) % 2 ^ 32) ^^^ state.input 0) ∧
      (checksumInit state seed).input = state.input ∧
      (seed &&& 0xff = seed' &&& 0xff →
        (checksumInit state seed).buffer = (checksumInit state seed').buffer) := by
  refine ⟨?_, rfl, ?_⟩
  · intro i
    simp only [checksumInit, add32, mul32, MAGIC_NUMBER, WORD]
    norm_num
  · intro h
    simp only [checksumInit, h]

theorem checksumInit_broadcast_witness :
    (0x9191 : Nat) &&& 0xff = 0x1234591 &&& 0xff ∧
      (checksumInit sampleState 0x9191).buffer = (checksumInit sampleState 0x1234591).buffer :=
  ⟨by decide, (checksumInit_broadcast sampleState 0x9191 0x1234591).2.2 (by decide)⟩

/-! ## Byte order -/

theorem byteswap_wordOfBytes (b0 b1 b2 b3 : Nat)
    (h0 : b0 < 256) (h1 : b1 < 256) (h2 : b2 < 256) (h3 : b3 < 256) :
    byteswap (wordOfBytes b0 b1 b2 b3) = wordOfBytes b3 b2 b1 b0 := by
  simp only [byteswap, wordOfBytes]
  omega

theorem byteswap_eq_wordOfBytes (w : Nat) :
    byteswap w
      = wordOfBytes (w / 16777216 % 256) (w / 65536 % 256) (w / 256 % 256) (w % 256) := by
  simp only [byteswap, wordOfBytes]
  omega

theorem byteswap_byteswap (w : Nat) (h : w < WORD) : byteswap (byteswap w) = w := by
  rw [byteswap_eq_wordOfBytes w,
    byteswap_wordOfBytes _ _ _ _ (Nat.mod_lt _ (by decide)) (Nat.mod_lt _ (by decide))
      (Nat.mod_lt _ (by decide)) (Nat.mod_lt _ (by decide))]
  simp only [wordOfBytes, WORD] at *
  omega

theorem bytesOfWord_wordOfBytes (b0 b1 b2 b3 : Nat)
    (h0 : b0 < 256) (h1 : b1 < 256) (h2 : b2 < 256) (h3 : b3 < 256) :
    bytesOfWord (wordOfBytes b0 b1 b2 b3) = [b0, b1, b2, b3] := by
  simp only [bytesOfWord, wordOfBytes]
  congr 1
  · omega
  congr 1
  · omega
  congr 1
  · omega
  congr 1
  omega

theorem wordOfBytes_lt (b0 b1 b2 b3 : Nat)
    (h0 : b0 < 256) (h1 : b1 < 256) (h2 : b2 < 256) (h3 : b3 < 256) :
    wordOfBytes b0 b1 b2 b3 < WORD := by
  simp only [wordOfBytes, WORD]
  omega

theorem readWords_lt (n : Nat) : ∀ file : List Nat, file.length = 4 * n →
    (∀ b ∈ file, b < 256) → ∀ w ∈ readWords file, w < WORD := by
  induction n with
  | zero =>
    intro file hlen _ w hw
    have : file = [] := List.length_eq_zero.mp (by omega)
    subst this
    simp [readWords] at hw
  | succ n ih =>
    intro file hlen hb w hw
    match file, hlen, hb, hw with
    | b0 :: b1 :: b2 :: b3 :: rest, hlen, hb, hw =>
      simp only [readWords, List.mem_cons] at hw
      rcases hw with hw | hw
      · subst hw
        exact wordOfBytes_lt _ _ _ _ (hb _ (by simp)) (hb _ (by simp)) (hb _ (by simp))
          (hb _ (by simp))
      · refine ih rest ?_ (fun b hbm => hb b (by simp [hbm])) w hw
        simp only [List.length_cons] at hlen
        omega
    | [], hlen, _, _ => simp at hlen
    | [_], hlen, _, _ => simp at hlen; omega
    | [_, _], hlen, _, _ => simp at hlen; omega
    | [_, _, _], hlen, _, _ => simp at hlen; omega

theorem writeWords_readWords (n : Nat) : ∀ file : List Nat, file.length = 4 * n →
    (∀ b ∈ file, b < 256) →
    writeWords (((readWords file).map byteswap).map byteswap) = file := by
  induction n with
  | zero =>
    intro file hlen _
    have : file = [] := List.length_eq_zero.mp (by omega)
    subst this
    rfl
  | succ n ih =>
    intro file hlen hb
    match file, hlen, hb with
    | b0 :: b1 :: b2 :: b3 :: rest, hlen, hb =>
      have h0 : b0 < 256 := hb _ (by simp)
      have h1 : b1 < 256 := hb _ (by simp)
      have h2 : b2 < 256 := hb _ (by simp)
      have h3 : b3 < 256 := hb _ (by simp)
      have hrest : rest.length = 4 * n := by
        simp only [List.length_cons] at hlen
        omega
      simp only [readWords, List.map_cons, writeWords]
      rw [byteswap_byteswap _ (wordOfBytes_lt _ _ _ _ h0 h1 h2 h3),
        bytesOfWord_wordOfBytes _ _ _ _ h0 h1 h2 h3,
        ih rest hrest (fun b hbm => hb b (by simp [hbm]))]
      rfl
    | [], hlen, _ => simp at hlen
    | [_], hlen, _ => simp at hlen; omega
    | [_, _], hlen, _ => simp at hlen; omega
    | [_, _, _], hlen, _ => simp at hlen; omega

/-- C10: for a file of 4096 bytes, loading (byte swap of each of the 1024 words) and
then `writeOutBuffer` (byte swap of each word again) with nothing changed in between
writes back the same 4096 bytes; on every word of the image the byte swap is an
involution. -/
theorem load_then_write_roundtrip (file : List Nat) (hlen : file.length = 4096)
    (hbytes : ∀ b ∈ file, b < 256) :
    (loadBootcode file).map writeOutBuffer = some file ∧
      (readWords file).length = 1024 ∧
      ∀ w ∈ readWords file, byteswap (byteswap w) = w := by
  have hlen4 : file.length = 4 * 1024 := by omega
  refine ⟨?_, ?_, ?_⟩
  · have htake : file.take BOOTCODE_SIZE = file :=
      List.take_of_length_le (by simp only [BOOTCODE_SIZE]; omega)
    have hsize : ¬ file.length < BOOTCODE_SIZE := by simp only [BOOTCODE_SIZE]; omega
    simp only [loadBootcode, if_neg hsize, htake, Option.map_some', writeOutBuffer]
    rw [writeWords_readWords 1024 file hlen4 hbytes]
  · have key : ∀ n : Nat, ∀ l : List Nat, l.length = 4 * n → (readWords l).length = n := by
      intro n
      induction n with
      | zero =>
        intro l hl
        have : l = [] := List.length_eq_zero.mp (by omega)
        subst this
        rfl
      | succ n ih =>
        intro l hl
        match l, hl with
        | _ :: _ :: _ :: _ :: rest, hl =>
          simp only [readWords, List.length_cons] at hl ⊢
          rw [ih rest (by omega)]
        | [], hl => simp at hl
        | [_], hl => simp at hl; omega
        | [_, _], hl => simp at hl; omega
        | [_, _, _], hl => simp at hl; omega
    exact key 1024 file hlen4
  · intro w hw
    exact byteswap_byteswap w (readWords_lt 1024 file hlen4 hbytes w hw)

theorem load_then_write_roundtrip_witness :
    sampleFile.length = 4096 ∧ (∀ b ∈ sampleFile, b < 256) ∧
      (loadBootcode sampleFile).map writeOutBuffer = some sampleFile :=
  have hlen : sampleFile.length = 4096 := by simp [sampleFile]
  have hbytes : ∀ b ∈ sampleFile, b < 256 := by
    intro b hb
    simp only [sampleFile, List.mem_map] at hb
    obtain ⟨i, _, rfl⟩ := hb
    exact Nat.mod_lt _ (by decide)
  ⟨hlen, hbytes, (load_then_write_roundtrip sampleFile hlen hbytes).1⟩

/-! ## The dispatch loop -/

theorem GPU_STEP_SIZE_eq : GPU_STEP_SIZE = 33554432 := by decide

/-- The offsets `1, 1 + S, 1 + 2 S, ...` of the 128 blocks, `S = GPU_STEP_SIZE`. -/
theorem dispatchLoop_aux (k : Nat) : ∀ fuel offset : Nat, offset = 1 + (128 - k) * 33554432 →
    k ≤ 128 → 0 < k → k ≤ fuel →
    dispatchLoop fuel offset
      = some ((List.range' (128 - k) k).map fun j => 1 + j * 33554432) := by
  induction k with
  | zero => intro _ _ _ _ h0; exact absurd h0 (by decide)
  | succ k ih =>
    intro fuel offset ho hk _ hf
    obtain ⟨fuel, rfl⟩ : ∃ f, fuel = f + 1 := ⟨fuel - 1, by omega⟩
    simp only [dispatchLoop, GPU_STEP_SIZE_eq, DWORD, WORD]
    by_cases hk0 : k = 0
    · subst hk0
      subst ho
      simp [List.range']
    · have hlt : ¬ (offset + 33554432) % 18446744073709551616 > 4294967295 := by omega
      rw [if_neg hlt]
      have hnext : (offset + 33554432) % 18446744073709551616 % 4294967296
          = 1 + (128 - k) * 33554432 := by omega
      rw [hnext, ih fuel _ rfl (by omega) (by omega) (by omega)]
      have h128 : 128 - k = (128 - (k + 1)) + 1 := by omega
      simp only [Option.map_some', List.range'_succ, List.map_cons, ho]
      rw [h128]

theorem dispatchLoop_eq (fuel : Nat) (h : 128 ≤ fuel) :
    dispatchLoop fuel 1 = some ((List.range 128).map fun k => 1 + k * 33554432) := by
  have := dispatchLoop_aux 128 fuel 1 (by decide) (by decide) (by decide) h
  rw [this, List.range_eq_range']

theorem mem_dispatchOffsets (o : Nat) :
    o ∈ (List.range 128).map (fun k => 1 + k * 33554432) ↔ ∃ k, k < 128 ∧ o = 1 + k * 33554432 := by
  simp only [List.mem_map, List.mem_range]
  constructor
  · rintro ⟨k, hk, rfl⟩
    exact ⟨k, hk, rfl⟩
  · rintro ⟨k, hk, rfl⟩
    exact ⟨k, hk, rfl⟩

/-- C11: the dispatch loop ends (any fuel of at least 128 gives the same list) and
issues the offsets `1 + k * S` for `k = 0 .. 127` in strictly increasing order, where
`S = GPU_STEP_SIZE = 512 * 512 * 128 = 2^25` is computed without 32-bit overflow; the
blocks `[offset, offset + S)` of two different offsets do not overlap, each block
starts where the previous one ends, and every candidate in `1 .. 0xFFFFFFFF` lies in
exactly one block. -/
theorem dispatch_blocks_partition :
    (GPU_GROUP_SPLIT * GPU_GROUP_SPLIT * GPU_BATCH_COUNT < 2 ^ 32 ∧
      GPU_STEP_SIZE = 512 * 512 * 128 ∧ GPU_STEP_SIZE = 2 ^ 25) ∧
    ∃ offsets : List Nat,
      (∀ fuel, 128 ≤ fuel → dispatchLoop fuel 1 = some offsets) ∧
      offsets = (List.range 128).map (fun k => 1 + k * GPU_STEP_SIZE) ∧
      List.Pairwise (fun a b => a < b) offsets ∧
      (∀ a ∈ offsets, ∀ b ∈ offsets, a ≠ b →
        ∀ c, ¬ ((a ≤ c ∧ c < a + GPU_STEP_SIZE) ∧ (b ≤ c ∧ c < b + GPU_STEP_SIZE))) ∧
      (∀ k, k + 1 < offsets.length →
        offsets.getD (k + 1) 0 = offsets.getD k 0 + GPU_STEP_SIZE) ∧
      offsets.head? = some 1 ∧
      (∀ c, 1 ≤ c → c ≤ 0xFFFFFFFF →
        ∃ a, (a ∈ offsets ∧ a ≤ c ∧ c < a + GPU_STEP_SIZE) ∧
          ∀ b, (b ∈ offsets ∧ b ≤ c ∧ c < b + GPU_STEP_SIZE) → b = a) := by
  refine ⟨⟨by decide, by decide, by decide⟩, _, fun fuel h => dispatchLoop_eq fuel h, ?_, ?_,
    ?_, ?_, ?_, ?_⟩
  · rw [GPU_STEP_SIZE_eq]
  · rw [List.pairwise_map]
    refine List.Pairwise.imp ?_ (List.pairwise_lt_range 128)
    intro a b hab
    omega
  · intro a ha b hb hab c hc
    rw [GPU_STEP_SIZE_eq] at hc
    obtain ⟨ka, _, rfl⟩ := (mem_dispatchOffsets a).mp ha
    obtain ⟨kb, _, rfl⟩ := (mem_dispatchOffsets b).mp hb
    have : ka = kb := by omega
    subst this
    exact hab rfl
  · intro k hk
    simp only [List.length_map, List.length_range] at hk
    rw [GPU_STEP_SIZE_eq]
    simp only [List.getD_eq_getElem?_getD, List.getElem?_map]
    rw [List.getElem?_range (by omega), List.getElem?_range (by omega)]
    simp only [Option.map_some', Option.getD_some]
    omega
  · rfl
  · intro c h1 h2
    rw [GPU_STEP_SIZE_eq]
    refine ⟨1 + (c - 1) / 33554432 * 33554432, ⟨?_, ?_, ?_⟩, ?_⟩
    · exact (mem_dispatchOffsets _).mpr ⟨(c - 1) / 33554432, by omega, rfl⟩
    · omega
    · omega
    · rintro b ⟨hb, hb1, hb2⟩
      obtain ⟨kb, _, rfl⟩ := (mem_dispatchOffsets b).mp hb
      omega

theorem dispatch_blocks_partition_witness :
    ∃ a, a ∈ (List.range 128).map (fun k => 1 + k * GPU_STEP_SIZE) ∧
      a ≤ 0xFFFFFFFF ∧ 0xFFFFFFFF < a + GPU_STEP_SIZE := by
  obtain ⟨_, offsets, _, hoff, _, _, _, _, hcover⟩ := dispatch_blocks_partition
  obtain ⟨a, ⟨ha, h1, h2⟩, _⟩ := hcover 0xFFFFFFFF (by decide) (by decide)
  exact ⟨a, hoff ▸ ha, h1, h2⟩

/-- C12, as stated, fails: the last dispatched offset is `0xFE000001`, and its last
lane `i = GPU_STEP_SIZE - 1` gives `offset + i = 2^32`, above `0xFFFFFFFF` and equal to 0
modulo `2^32`. -/
theorem last_lane_reaches_two_pow_32 :
    (∃ offsets, dispatchLoop 128 1 = some offsets ∧ 0xFE000001 ∈ offsets) ∧
      0x1FFFFFF < GPU_STEP_SIZE ∧
      ¬ (0xFE000001 + 0x1FFFFFF ≤ 0xFFFFFFFF) ∧
      (0xFE000001 + 0x1FFFFFF) % 2 ^ 32 = 0 := by
  refine ⟨⟨_, dispatchLoop_eq 128 (Nat.le_refl _), ?_⟩, by decide, by decide, by decide⟩
  exact (mem_dispatchOffsets _).mpr ⟨127, by decide, by decide⟩

/-- C12, amended: for every dispatched offset and every lane `i < GPU_STEP_SIZE` the
candidate `offset + i` is at least 1 and at most `2^32`; it is at most `0xFFFFFFFF`
(so nonzero modulo `2^32`) in every lane but one, the last lane of the last block
(`offset = 0xFE000001`, `i = GPU_STEP_SIZE - 1`), where it is `2^32`. -/
theorem lane_candidates_range (fuel : Nat) (offsets : List Nat)
    (hrun : dispatchLoop fuel 1 = some offsets) (hfuel : 128 ≤ fuel)
    (offset i : Nat) (ho : offset ∈ offsets) (hi : i < GPU_STEP_SIZE) :
    1 ≤ offset ∧ 1 ≤ offset + i ∧ offset + i ≤ 2 ^ 32 ∧
      (offset + i ≤ 0xFFFFFFFF ↔ ¬ (offset = 0xFE000001 ∧ i = GPU_STEP_SIZE - 1)) ∧
      ((offset + i) % 2 ^ 32 = 0 ↔ (offset = 0xFE000001 ∧ i = GPU_STEP_SIZE - 1)) := by
  rw [dispatchLoop_eq fuel hfuel] at hrun
  cases hrun
  rw [GPU_STEP_SIZE_eq] at hi ⊢
  obtain ⟨k, hk, rfl⟩ := (mem_dispatchOffsets offset).mp ho
  refine ⟨by omega, by omega, by omega, ?_, ?_⟩
  · constructor
    · intro h; omega
    · intro h; omega
  · constructor
    · intro h; omega
    · intro h; omega

theorem lane_candidates_range_witness :
    dispatchLoop 128 1 = some ((List.range 128).map fun k => 1 + k * 33554432) ∧
      128 ≤ 128 ∧ 33554433 ∈ (List.range 128).map (fun k => 1 + k * 33554432) ∧
      5 < GPU_STEP_SIZE ∧ 33554433 + 5 ≤ 0xFFFFFFFF :=
  have hrun := dispatchLoop_eq 128 (Nat.le_refl _)
  have hmem : 33554433 ∈ (List.range 128).map (fun k => 1 + k * 33554432) :=
    (mem_dispatchOffsets _).mpr ⟨1, by decide, by decide⟩
  ⟨hrun, Nat.le_refl _, hmem, by decide,
    ((lane_candidates_range 128 _ hrun (Nat.le_refl _) 33554433 5 hmem (by decide)).2.2.2.1).mpr
      (by decide)⟩

/-! ## The middle sweep -/

theorem add32_succ (y : Nat) (h : y < 0xFFFFFFFF) : add32 y 1 = y + 1 := by
  simp only [add32, WORD]
  omega

theorem middleSweep_succ (device : (Fin 16 → Nat) → Nat) (oldBuffer : Fin 16 → Nat)
    (fuel : Nat) (input : Nat → Nat) (y : Nat) (hy : y < 0xFFFFFFFF) :
    middleSweep device oldBuffer (fuel + 1) input y
      = if device (middlePrepare oldBuffer input y).buffer > 0 then
          some ([y], Outcome.found (setInput (middlePrepare oldBuffer input y).input 1007
            (device (middlePrepare oldBuffer input y).buffer)))
        else
          (middleSweep device oldBuffer fuel (middlePrepare oldBuffer input y).input (y + 1)).map
            fun r => (y :: r.1, r.2) := by
  simp only [middleSweep, if_pos hy, add32_succ y hy]

theorem middleSweep_end (device : (Fin 16 → Nat) → Nat) (oldBuffer : Fin 16 → Nat)
    (fuel : Nat) (input : Nat → Nat) (y : Nat) (hy : ¬ y < 0xFFFFFFFF) :
    middleSweep device oldBuffer (fuel + 1) input y = some ([], Outcome.exhausted input) := by
  simp only [middleSweep, if_neg hy]

/-- With enough fuel the middle sweep returns, and its first visited value is the
start value when that is below `0xFFFFFFFF`. -/
theorem middleSweep_some (device : (Fin 16 → Nat) → Nat) (oldBuffer : Fin 16 → Nat) :
    ∀ (fuel : Nat) (input : Nat → Nat) (y : Nat), 0xFFFFFFFF - y < fuel →
      ∃ visited out, middleSweep device oldBuffer fuel input y = some (visited, out) ∧
        (y < 0xFFFFFFFF → ∃ rest, visited = y :: rest) := by
  intro fuel
  induction fuel with
  | zero => intro _ y h; exact absurd h (by omega)
  | succ fuel ih =>
    intro input y hf
    by_cases hy : y < 0xFFFFFFFF
    · rw [middleSweep_succ _ _ _ _ _ hy]
      by_cases hm : device (middlePrepare oldBuffer input y).buffer > 0
      · rw [if_pos hm]
        exact ⟨_, _, rfl, fun _ => ⟨[], rfl⟩⟩
      · rw [if_neg hm]
        obtain ⟨visited, out, hrun, _⟩ :=
          ih (middlePrepare oldBuffer input y).input (y + 1) (by omega)
        rw [hrun]
        exact ⟨_, _, rfl, fun _ => ⟨visited, rfl⟩⟩
    · rw [middleSweep_end _ _ _ _ _ hy]
      exact ⟨_, _, rfl, fun h => absurd h hy⟩

/-- When the device never reports a match the middle sweep visits exactly
`y, y + 1, ..., 0xFFFFFFFE`. -/
theorem middleSweep_no_match (device : (Fin 16 → Nat) → Nat) (oldBuffer : Fin 16 → Nat)
    (hdev : ∀ b, device b = 0) :
    ∀ (fuel : Nat) (input : Nat → Nat) (y : Nat), 0xFFFFFFFF - y < fuel →
      ∃ input', middleSweep device oldBuffer fuel input y
        = some (List.range' y (0xFFFFFFFF - y), Outcome.exhausted input') := by
  intro fuel
  induction fuel with
  | zero => intro _ y h; exact absurd h (by omega)
  | succ fuel ih =>
    intro input y hf
    by_cases hy : y < 0xFFFFFFFF
    · rw [middleSweep_succ _ _ _ _ _ hy, hdev, if_neg (by decide)]
      obtain ⟨input', hrun⟩ := ih (middlePrepare oldBuffer input y).input (y + 1) (by omega)
      rw [hrun]
      refine ⟨input', ?_⟩
      have hn : 0xFFFFFFFF - y = (0xFFFFFFFF - (y + 1)) + 1 := by omega
      rw [hn, List.range'_succ]
      rfl
    · rw [middleSweep_end _ _ _ _ _ hy]
      have hn : 0xFFFFFFFF - y = 0 := by omega
      rw [hn]
      exact ⟨input, rfl⟩

/-- C13, as stated, fails: started at `0xFFFFFFFD` with a device that reports no
match, the middle sweep visits `0xFFFFFFFD` and `0xFFFFFFFE` and stops; the value
`0xFFFFFFFF` is not visited. -/
theorem middleSweep_skips_last_value :
    (middleSweep (fun _ => 0) (fun _ => 0) WORD (fun _ => 0) 0xFFFFFFFD).map Prod.fst
        = some [0xFFFFFFFD, 0xFFFFFFFE] ∧
      (0xFFFFFFFD ≤ 0xFFFFFFFF ∧ 0xFFFFFFFF ≤ 0xFFFFFFFF) ∧
      0xFFFFFFFF ∉ [0xFFFFFFFD, 0xFFFFFFFE] := by
  refine ⟨by decide, by decide, by decide⟩

/-- C13, amended: when the device reports no match, the middle sweep started at
`startLoop` ends and visits, in increasing order, exactly the values `y` with
`startLoop <= y < 0xFFFFFFFF`; the value `0xFFFFFFFF` is never visited. -/
theorem middleSweep_visits_below_max (device : (Fin 16 → Nat) → Nat)
    (oldBuffer : Fin 16 → Nat) (input : Nat → Nat) (startLoop : Nat)
    (hdev : ∀ b, device b = 0) (hstart : startLoop ≤ 0xFFFFFFFF) :
    ∃ visited input',
      middleSweep device oldBuffer WORD input startLoop
        = some (visited, Outcome.exhausted input') ∧
      visited = List.range' startLoop (0xFFFFFFFF - startLoop) ∧
      (∀ y, y ∈ visited ↔ startLoop ≤ y ∧ y < 0xFFFFFFFF) ∧
      List.Pairwise (fun a b => a < b) visited := by
  obtain ⟨input', hrun⟩ :=
    middleSweep_no_match device oldBuffer hdev WORD input startLoop
      (by simp only [WORD]; omega)
  refine ⟨_, input', hrun, rfl, ?_, List.pairwise_lt_range' _ _⟩
  intro y
  rw [List.mem_range'_1]
  omega

theorem middleSweep_visits_below_max_witness :
    (∀ b : Fin 16 → Nat, (fun _ : Fin 16 → Nat => 0) b = 0) ∧
      (4000000000 ≤ 0xFFFFFFFF) ∧
      ∃ visited input',
        middleSweep (fun _ => 0) sampleState.buffer WORD sampleState.input 4000000000
          = some (visited, Outcome.exhausted input') ∧
        visited = List.range' 4000000000 (0xFFFFFFFF - 4000000000) ∧
        (∀ y, y ∈ visited ↔ 4000000000 ≤ y ∧ y < 0xFFFFFFFF) ∧
        List.Pairwise (fun a b => a < b) visited :=
  ⟨fun _ => rfl, by decide,
    middleSweep_visits_below_max (fun _ => 0) sampleState.buffer sampleState.input 4000000000
      (fun _ => rfl) (by decide)⟩

theorem compensationWindow_input (state : CheckSumState) (y : Nat) :
    (compensationWindow state y).input
      = setInput (setInput (setInput (setInput state.input 1003
          (sub32 (neg32 (state.buffer 12)) y)) 1004 y) 1005 0) 1006 0 := by
  simp only [compensationWindow, checksumCalculateStep_input]

theorem middlePrepare_input (oldBuffer : Fin 16 → Nat) (input : Nat → Nat) (y : Nat) :
    (middlePrepare oldBuffer input y).input
      = setInput (setInput (setInput (setInput input 1003
          (sub32 (neg32 (oldBuffer 12)) y)) 1004 y) 1005 0) 1006 0 := by
  simp only [middlePrepare, indep1007_input, compensationWindow_input]

/-- C14 fails on the code: with the default `startLoop = 0` (which `main` passes too
when `rand()` is a multiple of `0xFFFFFFF`), the first iteration of the middle sweep
runs with `y = 0` and writes 0 to `input[1004]`. -/
theorem middleSweep_default_start_writes_zero_probe (device : (Fin 16 → Nat) → Nat)
    (oldBuffer : Fin 16 → Nat) (input : Nat → Nat) :
    DEFAULT_START_LOOP = 0 ∧ mainLoopStart 0 = 0 ∧ mainLoopStart 0xFFFFFFF = 0 ∧
      (∃ rest out,
        middleSweep device oldBuffer WORD input DEFAULT_START_LOOP = some (0 :: rest, out)) ∧
      (middlePrepare oldBuffer input 0).input 1004 = 0 := by
  refine ⟨rfl, by decide, by decide, ?_, ?_⟩
  · obtain ⟨visited, out, hrun, hhead⟩ :=
      middleSweep_some device oldBuffer WORD input DEFAULT_START_LOOP (by decide)
    obtain ⟨rest, rfl⟩ := hhead (by decide)
    exact ⟨rest, out, hrun⟩
  · rw [middlePrepare_input]
    simp [setInput]

/-! ## What the sweeps write -/

theorem checksumCalculate_input (state : CheckSumState) (loopEnd : Nat) :
    (checksumCalculate state loopEnd).input = state.input := by
  induction loopEnd with
  | zero => rfl
  | succ n ih =>
    show (checksumCalculateStep (checksumCalculate state n) (n + 1)).input = state.input
    rw [checksumCalculateStep_input, ih]

theorem outerPrepare_input (startingBuffer : Fin 16 → Nat) (input : Nat → Nat) (inp1000 : Nat) :
    (outerPrepare startingBuffer input inp1000).input
      = setInput (setInput (setInput input 1000 inp1000) 1001 0) 1002 0 := by
  simp only [outerPrepare, checksumCalculate_input]

theorem middlePrepare_input_off (oldBuffer : Fin 16 → Nat) (input : Nat → Nat) (y i : Nat)
    (hi : i < 1003 ∨ 1006 < i) : (middlePrepare oldBuffer input y).input i = input i := by
  rw [middlePrepare_input]
  simp only [setInput]
  rw [if_neg (by omega), if_neg (by omega), if_neg (by omega), if_neg (by omega)]

theorem outerPrepare_input_off (startingBuffer : Fin 16 → Nat) (input : Nat → Nat)
    (inp1000 i : Nat) (hi : i < 1000 ∨ 1002 < i) :
    (outerPrepare startingBuffer input inp1000).input i = input i := by
  rw [outerPrepare_input]
  simp only [setInput]
  rw [if_neg (by omega), if_neg (by omega), if_neg (by omega)]

/-- The middle sweep changes the input view at the indices 1003 to 1007 only, and a
match leaves the nonzero flag of the device in `input[1007]`. -/
theorem middleSweep_frame (device : (Fin 16 → Nat) → Nat) (oldBuffer : Fin 16 → Nat) :
    ∀ (fuel : Nat) (input : Nat → Nat) (y : Nat) (visited : List Nat) (out : Outcome),
      middleSweep device oldBuffer fuel input y = some (visited, out) →
      (∀ i, i < 1003 ∨ 1007 < i → out.view i = input i) ∧
      (∀ img, out = Outcome.found img → 0 < img 1007 ∧ ∃ b, img 1007 = device b) := by
  intro fuel
  induction fuel with
  | zero => intro _ _ _ _ h; simp [middleSweep] at h
  | succ fuel ih =>
    intro input y visited out hrun
    by_cases hy : y < 0xFFFFFFFF
    · rw [middleSweep_succ _ _ _ _ _ hy] at hrun
      by_cases hm : device (middlePrepare oldBuffer input y).buffer > 0
      · rw [if_pos hm] at hrun
        simp only [Option.some.injEq, Prod.mk.injEq] at hrun
        obtain ⟨_, rfl⟩ := hrun
        refine ⟨?_, ?_⟩
        · intro i hi
          simp only [Outcome.view, setInput]
          rw [if_neg (by omega)]
          exact middlePrepare_input_off _ _ _ _ (by omega)
        · intro img himg
          cases himg
          simp only [setInput, if_true]
          exact ⟨hm, _, rfl⟩
      · rw [if_neg hm] at hrun
        cases hrec : middleSweep device oldBuffer fuel (middlePrepare oldBuffer input y).input
            (y + 1) with
        | none => rw [hrec] at hrun; simp at hrun
        | some r =>
          rw [hrec] at hrun
          simp only [Option.map_some', Option.some.injEq, Prod.mk.injEq] at hrun
          obtain ⟨_, rfl⟩ := hrun
          obtain ⟨h1, h2⟩ := ih _ _ r.1 r.2 hrec
          refine ⟨?_, h2⟩
          intro i hi
          rw [h1 i hi]
          exact middlePrepare_input_off _ _ _ _ (by omega)
    · rw [middleSweep_end _ _ _ _ _ hy] at hrun
      simp only [Option.some.injEq, Prod.mk.injEq] at hrun
      obtain ⟨_, rfl⟩ := hrun
      exact ⟨fun _ _ => rfl, fun img himg => by cases himg⟩

/-- The outer sweep changes the input view at the indices 1000 to 1007 only, and a
match leaves the nonzero flag of the device in `input[1007]`. -/
theorem outerSweep_frame (device : (Fin 16 → Nat) → Nat) (startingBuffer : Fin 16 → Nat)
    (startLoop : Nat) :
    ∀ (fuel : Nat) (input : Nat → Nat) (inp1000 : Nat) (out : Outcome),
      outerSweep device startingBuffer startLoop fuel input inp1000 = some out →
      (∀ i, i < 1000 ∨ 1007 < i → out.view i = input i) ∧
      (∀ img, out = Outcome.found img → 0 < img 1007 ∧ ∃ b, img 1007 = device b) := by
  intro fuel
  induction fuel with
  | zero => intro _ _ _ h; simp [outerSweep] at h
  | succ fuel ih =>
    intro input inp1000 out hrun
    by_cases hi : inp1000 < 0xFFFFFFFF
    · simp only [outerSweep, if_pos hi] at hrun
      cases hms : middleSweep device (outerPrepare startingBuffer input inp1000).buffer WORD
          (outerPrepare startingBuffer input inp1000).input startLoop with
      | none => rw [hms] at hrun; simp at hrun
      | some r =>
        obtain ⟨visited, mout⟩ := r
        rw [hms] at hrun
        obtain ⟨h1, h2⟩ := middleSweep_frame device _ _ _ _ _ _ hms
        cases mout with
        | found img =>
          simp only [Option.some.injEq] at hrun
          subst hrun
          refine ⟨?_, h2⟩
          intro i hi'
          rw [h1 i (by omega)]
          exact outerPrepare_input_off _ _ _ _ (by omega)
        | exhausted input' =>
          simp only at hrun
          obtain ⟨g1, g2⟩ := ih _ _ _ hrun
          refine ⟨?_, g2⟩
          intro i hi'
          rw [g1 i hi']
          have := h1 i (by omega)
          simp only [Outcome.view] at this
          rw [this]
          exact outerPrepare_input_off _ _ _ _ (by omega)
    · simp only [outerSweep, if_neg hi, Option.some.injEq] at hrun
      subst hrun
      exact ⟨fun _ _ => rfl, fun img himg => by cases himg⟩

/-- The outer sweep returns with the fuel `bruteforceSearch` gives it: `none` of the
search stands for a sweep that ended without a match. -/
theorem outerSweep_some (device : (Fin 16 → Nat) → Nat) (startingBuffer : Fin 16 → Nat)
    (startLoop : Nat) :
    ∀ (fuel : Nat) (input : Nat → Nat) (inp1000 : Nat), 0xFFFFFFFF - inp1000 < fuel →
      ∃ out, outerSweep device startingBuffer startLoop fuel input inp1000 = some out := by
  intro fuel
  induction fuel with
  | zero => intro _ _ h; exact absurd h (by omega)
  | succ fuel ih =>
    intro input inp1000 hf
    by_cases hi : inp1000 < 0xFFFFFFFF
    · simp only [outerSweep, if_pos hi]
      obtain ⟨visited, mout, hms, _⟩ :=
        middleSweep_some device (outerPrepare startingBuffer input inp1000).buffer WORD
          (outerPrepare startingBuffer input inp1000).input startLoop
          (by simp only [WORD]; omega)
      rw [hms]
      cases mout with
      | found img => exact ⟨_, rfl⟩
      | exhausted input' =>
        have hnext : add32 inp1000 1 = inp1000 + 1 := add32_succ inp1000 hi
        simp only [hnext]
        exact ih input' (inp1000 + 1) (by omega)
    · simp only [outerSweep, if_neg hi]
      exact ⟨_, rfl⟩

theorem storeView_getD (bootcode : List Nat) (input : Nat → Nat) (j : Nat) (hj : j < 1024) :
    (storeView bootcode input).getD j 0
      = if j < 16 then bootcode.getD j 0 else input (j - 16) := by
  have h16 : BOOTCODE_OFFSET / 4 = 16 := by decide
  have h1024 : BOOTCODE_SIZE_WORDS = 1024 := by decide
  simp only [storeView, h16, h1024, List.getD_eq_getElem?_getD, List.getElem?_map]
  rw [List.getElem?_range hj]
  rfl

theorem storeView_length (bootcode : List Nat) (input : Nat → Nat) :
    (storeView bootcode input).length = 1024 := by
  simp [storeView, BOOTCODE_SIZE_WORDS, BOOTCODE_SIZE]

/-- The image that the search hands to `writeOutBuffer`, word by word. -/
theorem bruteforceSearch_found (device : (Fin 16 → Nat) → Nat) (bootcode : List Nat)
    (seed startLoop : Nat) (img : List Nat)
    (hrun : bruteforceSearch device bootcode seed startLoop = some img) :
    ∃ input' : Nat → Nat, img = storeView bootcode input' ∧
      (∀ i, (0 < i ∧ i < 1000) ∨ 1007 < i → input' i = inputView bootcode i) ∧
      input' 0 = add32 (mul32 MAGIC_NUMBER (seed &&& 0xff)) 1 ∧
      0 < input' 1007 ∧ ∃ b, input' 1007 = device b := by
  simp only [bruteforceSearch] at hrun
  split at hrun
  · rename_i input' hsweep
    simp only [Option.some.injEq] at hrun
    obtain ⟨h1, h2⟩ := outerSweep_frame _ _ _ _ _ _ _ hsweep
    obtain ⟨hpos, hdev⟩ := h2 input' rfl
    refine ⟨input', hrun.symm, ?_, ?_, hpos, hdev⟩
    · intro i hi
      have := h1 i (by omega)
      simp only [Outcome.view, checksumInit, setInput] at this
      rw [this, if_neg (by omega)]
    · have := h1 0 (by omega)
      simp only [Outcome.view, checksumInit, setInput, if_true] at this
      exact this
  · simp at hrun

theorem seed_word_eq (seed : Nat) :
    add32 (mul32 MAGIC_NUMBER (seed &&& 0xff)) 1
      = (0x6c078965 * (seed &&& 0xff) + 1) % 2 ^ 32 := by
  simp only [add32, mul32, MAGIC_NUMBER, WORD]
  norm_num

theorem sample_search_finds :
    ∃ img, bruteforceSearch (fun _ => 5) (List.replicate 1024 0) 0 1 = some img :=
  Option.isSome_iff_exists.mp (by decide)

/-- C15, as stated, fails: on the all-zero image with seed 0 and a device that reports
the match 5 at once, the search ends in Found, and the image word 16 (`input[0]`, outside
the words 1016..1023) handed to `writeOutBuffer` is 1, not the loaded 0. -/
theorem search_overwrites_input0 :
    ∃ img, bruteforceSearch (fun _ => 5) (List.replicate 1024 0) 0 1 = some img ∧
      ¬ (1016 ≤ 16 ∧ 16 ≤ 1023) ∧
      (List.replicate 1024 0).getD 16 0 = 0 ∧ img.getD 16 0 = 1 := by
  obtain ⟨img, hrun⟩ := sample_search_finds
  obtain ⟨input', himg, _, h0, _, _⟩ := bruteforceSearch_found _ _ _ _ _ hrun
  refine ⟨img, hrun, by decide, by decide, ?_⟩
  rw [himg, storeView_getD _ _ 16 (by decide), if_neg (by decide), h0]
  decide

/-- C15, amended: in every search that ends in Found, the image handed to
`writeOutBuffer` has 1024 words and equals the loaded image in every word other than
word 16 (`input[0]`) and the words 1016..1023 (`input[1000..1007]`); word 16 holds
`(MAGIC_NUMBER * (seed & 0xff) + 1) mod 2^32`, and word 1023 (`input[1007]`) holds the
nonzero match value returned by the device. -/
theorem search_changes_input0_and_window_only (device : (Fin 16 → Nat) → Nat)
    (bootcode : List Nat) (seed startLoop : Nat) (img : List Nat)
    (hrun : bruteforceSearch device bootcode seed startLoop = some img) :
    img.length = 1024 ∧
      (∀ j, j < 1024 → j ≠ 16 → ¬ (1016 ≤ j ∧ j ≤ 1023) →
        img.getD j 0 = bootcode.getD j 0) ∧
      img.getD 16 0 = (0x6c078965 * (seed &&& 0xff) + 1) % 2 ^ 32 ∧
      0 < img.getD 1023 0 ∧ ∃ b, img.getD 1023 0 = device b := by
  obtain ⟨input', himg, hoff, h0, hpos, hdev⟩ := bruteforceSearch_found _ _ _ _ _ hrun
  have h16 : BOOTCODE_OFFSET / 4 = 16 := by decide
  rw [himg]
  refine ⟨storeView_length _ _, ?_, ?_, ?_, ?_⟩
  · intro j hj hj16 hwin
    rw [storeView_getD _ _ j hj]
    split_ifs with hlow
    · rfl
    · rw [hoff (j - 16) (by omega)]
      simp only [inputView, h16]
      congr 1
      omega
  · rw [storeView_getD _ _ 16 (by decide), if_neg (by decide), h0, seed_word_eq]
  · rw [storeView_getD _ _ 1023 (by decide), if_neg (by decide)]
    exact hpos
  · rw [storeView_getD _ _ 1023 (by decide), if_neg (by decide)]
    exact hdev

theorem search_changes_input0_and_window_only_witness :
    ∃ img, bruteforceSearch (fun _ => 5) (List.replicate 1024 0) 0 1 = some img ∧
      img.length = 1024 ∧ 0 < img.getD 1023 0 := by
  obtain ⟨img, hrun⟩ := sample_search_finds
  have h := search_changes_input0_and_window_only (fun _ => 5) (List.replicate 1024 0) 0 1 img hrun
  exact ⟨img, hrun, h.1, h.2.2.2.1⟩

/-! ## What a step reads -/

theorem stepReadIndices_bound (loop : Nat) (h1 : 1 ≤ loop) (h2 : loop ≤ 1008) :
    ∀ i ∈ stepReadIndices loop, i ≤ loop ∧ i < 1008 := by
  have e1 : sub32 loop 1 = loop - 1 := sub32_of_le loop 1 (by simp only [WORD]; omega) h1
  have e2 := sub32_two loop h1 h2
  intro i hi
  simp only [stepReadIndices, e1, e2, List.mem_append, List.mem_cons, List.mem_singleton,
    List.not_mem_nil, or_false] at hi
  rcases hi with (hi | hi) | hi
  · subst hi
    split_ifs <;> omega
  · omega
  · split_ifs at hi with h8
    · simp at hi
    · simp only [List.mem_singleton] at hi
      omega

/-- The accumulator after a step depends on the old accumulator and on the input words
at the indices of `stepReadIndices` only. -/
theorem checksumCalculateStep_congr (s1 s2 : CheckSumState) (loop : Nat)
    (hb : s1.buffer = s2.buffer)
    (hin : ∀ i ∈ stepReadIndices loop, s1.input i = s2.input i) :
    (checksumCalculateStep s1 loop).buffer = (checksumCalculateStep s2 loop).buffer := by
  have hlast : s1.input (if loop = 1 then 0 else sub32 loop 2)
      = s2.input (if loop = 1 then 0 else sub32 loop 2) :=
    hin _ (by simp [stepReadIndices])
  have hdata : s1.input (sub32 loop 1) = s2.input (sub32 loop 1) :=
    hin _ (by simp [stepReadIndices])
  by_cases h8 : loop = 1008
  · simp only [checksumCalculateStep, if_pos h8, hb, hlast, hdata]
  · have hnext : s1.input loop = s2.input loop := hin _ (by simp [stepReadIndices, h8])
    simp only [checksumCalculateStep, if_neg h8, hb, hlast, hdata, hnext]

/-- The accumulator after the steps `1 .. N` depends on `input[0..N]` only. -/
theorem checksumCalculate_congr (s1 s2 : CheckSumState) (hb : s1.buffer = s2.buffer) :
    ∀ N : Nat, N ≤ 1008 → (∀ i, i ≤ N → s1.input i = s2.input i) →
      (checksumCalculate s1 N).buffer = (checksumCalculate s2 N).buffer := by
  intro N
  induction N with
  | zero => intro _ _; exact hb
  | succ n ih =>
    intro hN hin
    show (checksumCalculateStep (checksumCalculate s1 n) (n + 1)).buffer
      = (checksumCalculateStep (checksumCalculate s2 n) (n + 1)).buffer
    apply checksumCalculateStep_congr
    · exact ih (by omega) (fun i hi => hin i (by omega))
    · intro i hi
      rw [checksumCalculate_input, checksumCalculate_input]
      exact hin i (stepReadIndices_bound (n + 1) (by omega) hN i hi).1

theorem CheckSumState.eq_of (s1 s2 : CheckSumState) (hb : s1.buffer = s2.buffer)
    (hi : s1.input = s2.input) : s1 = s2 := by
  cases s1
  cases s2
  simp only at hb hi
  rw [hb, hi]

theorem checksumCalculate_1006 (state : CheckSumState) :
    checksumCalculate state 1006
      = checksumCalculateStep (checksumCalculateStep (checksumCalculateStep
          (checksumCalculateStep (checksumCalculate state 1002) 1003) 1004) 1005) 1006 :=
  rfl

theorem compensationWindow_eq_steps (state : CheckSumState) (y : Nat) :
    compensationWindow state y
      = checksumCalculateStep (checksumCalculateStep (checksumCalculateStep
          (checksumCalculateStep
            { buffer := state.buffer, input := (compensationWindow state y).input } 1003)
          1004) 1005) 1006 := by
  rw [compensationWindow_input]
  rfl

theorem checksumCalculate_congr_input (buffer : Fin 16 → Nat) (in1 in2 : Nat → Nat) (N : Nat)
    (hN : N ≤ 1008) (hin : ∀ i, i ≤ N → in1 i = in2 i) :
    (checksumCalculate { buffer := buffer, input := in1 } N).buffer
      = (checksumCalculate { buffer := buffer, input := in2 } N).buffer :=
  checksumCalculate_congr { buffer := buffer, input := in1 } { buffer := buffer, input := in2 }
    rfl N hN hin

theorem outerPrepare_eq (startingBuffer : Fin 16 → Nat) (input : Nat → Nat) (inp1000 : Nat) :
    outerPrepare startingBuffer input inp1000
      = checksumCalculate
          { buffer := startingBuffer,
            input := setInput (setInput (setInput input 1000 inp1000) 1001 0) 1002 0 } 1002 := by
  simp only [outerPrepare]

/-- Running the steps 1 to 1002 over any input that agrees with the patched one up to
index 1002 gives the snapshot of the outer sweep. -/
theorem checksumCalculate_1002_eq_snapshot (startingBuffer : Fin 16 → Nat)
    (input : Nat → Nat) (inp1000 : Nat) (patched : Nat → Nat)
    (hp : ∀ i, i ≤ 1002 →
      patched i = setInput (setInput (setInput input 1000 inp1000) 1001 0) 1002 0 i) :
    checksumCalculate { buffer := startingBuffer, input := patched } 1002
      = { buffer := (outerPrepare startingBuffer input inp1000).buffer, input := patched } := by
  apply CheckSumState.eq_of
  · dsimp only
    rw [outerPrepare_eq]
    exact checksumCalculate_congr_input startingBuffer patched _ 1002 (by decide) hp
  · dsimp only
    rw [checksumCalculate_input]

/-- The compensation window on the restored snapshot, over an input view that agrees
with the snapshot's below index 1003, is the run of the steps 1 to 1006 over the
patched input. -/
theorem compensationWindow_snapshot (startingBuffer : Fin 16 → Nat) (input : Nat → Nat)
    (inp1000 y : Nat) (mem : Nat → Nat)
    (hmem : ∀ i, i < 1003 → mem i = (outerPrepare startingBuffer input inp1000).input i) :
    compensationWindow
        { buffer := (outerPrepare startingBuffer input inp1000).buffer, input := mem } y
      = checksumCalculate
          { buffer := startingBuffer,
            input := (compensationWindow
              { buffer := (outerPrepare startingBuffer input inp1000).buffer, input := mem }
              y).input }
          1006 := by
  have hp : ∀ i, i ≤ 1002 →
      (compensationWindow
        { buffer := (outerPrepare startingBuffer input inp1000).buffer, input := mem } y).input i
        = setInput (setInput (setInput input 1000 inp1000) 1001 0) 1002 0 i := by
    intro i hi
    rw [compensationWindow_input]
    dsimp only
    rw [← outerPrepare_input startingBuffer, ← hmem i (by omega)]
    simp only [setInput]
    rw [if_neg (by omega), if_neg (by omega), if_neg (by omega), if_neg (by omega)]
  rw [checksumCalculate_1006,
    checksumCalculate_1002_eq_snapshot startingBuffer input inp1000 _ hp]
  exact compensationWindow_eq_steps _ _

/-- C16: the accumulator that the middle sweep gets from the restored snapshot (the
state after `checksumCalculate(state, 1002)`) and the steps 1003 to 1006 is the
accumulator of `checksumCalculate(state, 1006)` run from the starting state over the
patched input, whatever the input view held at the indices 1003 and above before the
writes; the patched input is `input[1000] = inp1000`, `input[1001] = input[1002] = 0`,
`input[1003]` the compensating word, `input[1004] = y`, `input[1005] = input[1006] = 0`;
the snapshot does not depend on the words at index 1000 and above of the view it starts
from, and the steps `1 .. N` depend on `input[0..N]` only. -/
theorem snapshot_reuse_sound (startingBuffer : Fin 16 → Nat) (input : Nat → Nat)
    (inp1000 y : Nat) :
    (∀ mem : Nat → Nat,
      (∀ i, i < 1003 → mem i = (outerPrepare startingBuffer input inp1000).input i) →
      (compensationWindow
          { buffer := (outerPrepare startingBuffer input inp1000).buffer, input := mem } y).buffer
        = (checksumCalculate
            { buffer := startingBuffer,
              input := setInput (setInput (setInput (setInput (setInput (setInput (setInput mem
                1000 inp1000) 1001 0) 1002 0) 1003
                (sub32 (neg32 ((outerPrepare startingBuffer input inp1000).buffer 12)) y))
                1004 y) 1005 0) 1006 0 }
            1006).buffer) ∧
    (∀ leftover : Nat → Nat, (∀ i, i < 1000 → leftover i = input i) →
      (outerPrepare startingBuffer leftover inp1000).buffer
        = (outerPrepare startingBuffer input inp1000).buffer) ∧
    (∀ N, N ≤ 1008 → ∀ in1 in2 : Nat → Nat, (∀ i, i ≤ N → in1 i = in2 i) →
      (checksumCalculate { buffer := startingBuffer, input := in1 } N).buffer
        = (checksumCalculate { buffer := startingBuffer, input := in2 } N).buffer) := by
  refine ⟨?_, ?_, ?_⟩
  · intro mem hmem
    rw [compensationWindow_snapshot startingBuffer input inp1000 y mem hmem,
      compensationWindow_input]
    dsimp only
    apply checksumCalculate_congr_input _ _ _ 1006 (by decide)
    intro i hi
    simp only [setInput]
    by_cases h6 : i = 1006
    · rw [if_pos h6, if_pos h6]
    rw [if_neg h6, if_neg h6]
    by_cases h5 : i = 1005
    · rw [if_pos h5, if_pos h5]
    rw [if_neg h5, if_neg h5]
    by_cases h4 : i = 1004
    · rw [if_pos h4, if_pos h4]
    rw [if_neg h4, if_neg h4]
    by_cases h3 : i = 1003
    · rw [if_pos h3, if_pos h3]
    rw [if_neg h3, if_neg h3]
    have := hmem i (by omega)
    rw [outerPrepare_input] at this
    simp only [setInput] at this
    by_cases h2 : i = 1002
    · rw [if_pos h2] at this ⊢
      exact this
    rw [if_neg h2] at this ⊢
    by_cases h1 : i = 1001
    · rw [if_pos h1] at this ⊢
      exact this
    rw [if_neg h1] at this ⊢
    by_cases h0 : i = 1000
    · rw [if_pos h0] at this ⊢
      exact this
    rw [if_neg h0]
  · intro leftover hleft
    rw [outerPrepare_eq, outerPrepare_eq]
    apply checksumCalculate_congr_input _ _ _ 1002 (by decide)
    intro i hi
    simp only [setInput]
    by_cases h2 : i = 1002
    · rw [if_pos h2, if_pos h2]
    rw [if_neg h2, if_neg h2]
    by_cases h1 : i = 1001
    · rw [if_pos h1, if_pos h1]
    rw [if_neg h1, if_neg h1]
    by_cases h0 : i = 1000
    · rw [if_pos h0, if_pos h0]
    rw [if_neg h0, if_neg h0]
    exact hleft i (by omega)
  · intro N hN in1 in2 hin
    exact checksumCalculate_congr_input startingBuffer in1 in2 N hN hin

theorem snapshot_reuse_sound_witness :
    (∀ i, i < 1000 → setInput sampleState.input 1003 99 i = sampleState.input i) ∧
      (outerPrepare sampleState.buffer (setInput sampleState.input 1003 99) 5).buffer
        = (outerPrepare sampleState.buffer sampleState.input 5).buffer :=
  have h : ∀ i, i < 1000 → setInput sampleState.input 1003 99 i = sampleState.input i := by
    intro i hi
    simp only [setInput]
    rw [if_neg (by omega)]
  ⟨h, (snapshot_reuse_sound sampleState.buffer sampleState.input 5 7).2.1 _ h⟩

/-! ## Counteracting the seed -/

theorem compensationWindow_frame (state : CheckSumState) (y : Nat) (i : Fin 16)
    (h : i = 1 ∨ i = 7 ∨ i = 8 ∨ i = 14 ∨ i = 15) :
    (compensationWindow state y).buffer i = state.buffer i := by
  simp only [compensationWindow, checksumCalculateStep_frame _ _ _ h]

theorem middlePrepare_frame (oldBuffer : Fin 16 → Nat) (input : Nat → Nat) (y : Nat)
    (i : Fin 16) (h : i = 1 ∨ i = 7 ∨ i = 8 ∨ i = 14 ∨ i = 15) :
    (middlePrepare oldBuffer input y).buffer i = oldBuffer i := by
  have h3 : i ≠ 3 := by rcases h with h | h | h | h | h <;> subst h <;> decide
  have h6 : i ≠ 6 := by rcases h with h | h | h | h | h <;> subst h <;> decide
  rw [middlePrepare, indep1007_other _ _ h3 h6, compensationWindow_frame _ _ _ h]

theorem outerPrepare_frame (startingBuffer : Fin 16 → Nat) (input : Nat → Nat)
    (inp1000 : Nat) (i : Fin 16) (h : i = 1 ∨ i = 7 ∨ i = 8 ∨ i = 14 ∨ i = 15) :
    (outerPrepare startingBuffer input inp1000).buffer i = startingBuffer i := by
  rw [outerPrepare_eq, checksumCalculate_frame _ _ _ h]

theorem middlePrepare_unwritten (oldBuffer : Fin 16 → Nat) (input : Nat → Nat) (y : Nat)
    (h : UnwrittenSlotsZero oldBuffer) :
    UnwrittenSlotsZero (middlePrepare oldBuffer input y).buffer := by
  obtain ⟨a, b, c, d, e⟩ := h
  refine ⟨?_, ?_, ?_, ?_, ?_⟩
  · rw [middlePrepare_frame _ _ _ _ (by decide), a]
  · rw [middlePrepare_frame _ _ _ _ (by decide), b]
  · rw [middlePrepare_frame _ _ _ _ (by decide), c]
  · rw [middlePrepare_frame _ _ _ _ (by decide), d]
  · rw [middlePrepare_frame _ _ _ _ (by decide), e]

theorem outerPrepare_unwritten (startingBuffer : Fin 16 → Nat) (input : Nat → Nat)
    (inp1000 : Nat) (h : UnwrittenSlotsZero startingBuffer) :
    UnwrittenSlotsZero (outerPrepare startingBuffer input inp1000).buffer := by
  obtain ⟨a, b, c, d, e⟩ := h
  refine ⟨?_, ?_, ?_, ?_, ?_⟩
  · rw [outerPrepare_frame _ _ _ _ (by decide), a]
  · rw [outerPrepare_frame _ _ _ _ (by decide), b]
  · rw [outerPrepare_frame _ _ _ _ (by decide), c]
  · rw [outerPrepare_frame _ _ _ _ (by decide), d]
  · rw [outerPrepare_frame _ _ _ _ (by decide), e]

/-- The middle sweep calls the device on accumulators with zero in slots 1, 7, 8, 14
and 15 only: two devices that agree on those give the same sweep. -/
theorem middleSweep_device_congr (d1 d2 : (Fin 16 → Nat) → Nat) (oldBuffer : Fin 16 → Nat)
    (hold : UnwrittenSlotsZero oldBuffer)
    (hagree : ∀ b, UnwrittenSlotsZero b → d1 b = d2 b) :
    ∀ (fuel : Nat) (input : Nat → Nat) (y : Nat),
      middleSweep d1 oldBuffer fuel input y = middleSweep d2 oldBuffer fuel input y := by
  intro fuel
  induction fuel with
  | zero => intro _ _; rfl
  | succ fuel ih =>
    intro input y
    by_cases hy : y < 0xFFFFFFFF
    · rw [middleSweep_succ _ _ _ _ _ hy, middleSweep_succ _ _ _ _ _ hy,
        hagree _ (middlePrepare_unwritten oldBuffer input y hold), ih]
    · rw [middleSweep_end _ _ _ _ _ hy, middleSweep_end _ _ _ _ _ hy]

theorem outerSweep_device_congr (d1 d2 : (Fin 16 → Nat) → Nat)
    (startingBuffer : Fin 16 → Nat) (startLoop : Nat)
    (hstart : UnwrittenSlotsZero startingBuffer)
    (hagree : ∀ b, UnwrittenSlotsZero b → d1 b = d2 b) :
    ∀ (fuel : Nat) (input : Nat → Nat) (inp1000 : Nat),
      outerSweep d1 startingBuffer startLoop fuel input inp1000
        = outerSweep d2 startingBuffer startLoop fuel input inp1000 := by
  intro fuel
  induction fuel with
  | zero => intro _ _; rfl
  | succ fuel ih =>
    intro input inp1000
    by_cases hi : inp1000 < 0xFFFFFFFF
    · simp only [outerSweep, if_pos hi]
      rw [middleSweep_device_congr d1 d2 _
        (outerPrepare_unwritten startingBuffer input inp1000 hstart) hagree]
      simp only [ih]
    · simp only [outerSweep, if_neg hi]

theorem checksumInit_counteracted (buffer0 : Fin 16 → Nat) (input : Nat → Nat) (seed : Nat)
    (i : Fin 16) :
    (checksumInit
      { buffer := buffer0,
        input := setInput input 0 (add32 (mul32 MAGIC_NUMBER (seed &&& 0xff)) 1) } seed).buffer i
      = 0 := by
  simp only [checksumInit, setInput, if_true, Nat.xor_self]

/-- C18: after `input[0]` is overwritten with `(MAGIC_NUMBER * (seed & 0xff) + 1) mod 2^32`,
`checksumInit(state, seed)` leaves 0 in all 16 slots, for every seed and image; the
accumulator sent to the device in any iteration then has 0 in slots 1, 7, 8, 14 and 15,
and the search calls the device on such accumulators only (two devices that agree on
them give the same search). -/
theorem seed_counteracted (buffer0 : Fin 16 → Nat) (input : Nat → Nat) (seed : Nat) :
    ((checksumInit
        { buffer := buffer0,
          input := setInput input 0 ((0x6c078965 * (seed &&& 0xff) + 1) % 2 ^ 32) }
        seed).buffer = fun _ => 0) ∧
    (∀ (mem mem' : Nat → Nat) (inp1000 y : Nat),
      UnwrittenSlotsZero
        (middlePrepare (outerPrepare (fun _ => 0) mem inp1000).buffer mem' y).buffer) ∧
    (∀ (d1 d2 : (Fin 16 → Nat) → Nat) (bootcode : List Nat) (startLoop : Nat),
      (∀ b, UnwrittenSlotsZero b → d1 b = d2 b) →
      bruteforceSearch d1 bootcode seed startLoop
        = bruteforceSearch d2 bootcode seed startLoop) := by
  have hzero : UnwrittenSlotsZero (fun _ : Fin 16 => 0) := ⟨rfl, rfl, rfl, rfl, rfl⟩
  refine ⟨?_, ?_, ?_⟩
  · funext i
    rw [← seed_word_eq]
    exact checksumInit_counteracted buffer0 input seed i
  · intro mem mem' inp1000 y
    exact middlePrepare_unwritten _ _ _ (outerPrepare_unwritten _ _ _ hzero)
  · intro d1 d2 bootcode startLoop hagree
    have hinit : (checksumInit
        { buffer := fun _ => 0,
          input := setInput (inputView bootcode) 0
            (add32 (mul32 MAGIC_NUMBER (seed &&& 0xff)) 1) } seed).buffer = fun _ => 0 := by
      funext i
      exact checksumInit_counteracted _ _ seed i
    simp only [bruteforceSearch]
    rw [hinit, outerSweep_device_congr d1 d2 _ startLoop hzero hagree]

theorem seed_counteracted_witness :
    (∀ b, UnwrittenSlotsZero b →
      (fun b : Fin 16 → Nat => b 2 + b 7) b = (fun b : Fin 16 → Nat => b 2) b) ∧
    bruteforceSearch (fun b => b 2 + b 7) (List.replicate 1024 0) 0x9191 0
      = bruteforceSearch (fun b => b 2) (List.replicate 1024 0) 0x9191 0 :=
  have h : ∀ b, UnwrittenSlotsZero b →
      (fun b : Fin 16 → Nat => b 2 + b 7) b = (fun b : Fin 16 → Nat => b 2) b := by
    intro b hb
    show b 2 + b 7 = b 2
    rw [hb.2.1]
    rfl
  ⟨h, (seed_counteracted (fun _ => 0) (fun _ => 0) 0x9191).2.2 _ _ _ 0 h⟩

/-! ## Final values of slots 2 and 12 -/

theorem sumWords_eq_sum (input : Nat → Nat) (n : Nat) :
    sumWords input n = ((List.range n).map input).sum % 2 ^ 32 := by
  induction n with
  | zero => rfl
  | succ n ih =>
    simp only [sumWords, ih, List.range_succ, List.map_append, List.sum_append, List.map_cons,
      List.map_nil, List.sum_cons, List.sum_nil, Nat.add_zero]
    omega

theorem xorWords_eq_foldl (input : Nat → Nat) (n : Nat) :
    xorWords input n = ((List.range n).map input).foldl (fun a b => a ^^^ b) 0 := by
  induction n with
  | zero => rfl
  | succ n ih =>
    simp only [xorWords, ih, List.range_succ, List.map_append, List.foldl_append, List.map_cons,
      List.map_nil, List.foldl_cons, List.foldl_nil]

theorem checksumCalculate_slot12 (input : Nat → Nat) :
    ∀ n, n ≤ 1007 → (checksumCalculate (zeroState input) n).buffer 12 = sumWords input n := by
  intro n
  induction n with
  | zero => intro _; rfl
  | succ n ih =>
    intro hn
    show (checksumCalculateStep (checksumCalculate (zeroState input) n) (n + 1)).buffer 12
      = sumWords input (n + 1)
    have e1 : sub32 (n + 1) 1 = n := by
      rw [sub32_of_le (n + 1) 1 (by simp only [WORD]; omega) (by omega)]
      rfl
    rw [checksumCalculateStep_slot12 _ _ (by omega), e1, ih (by omega), checksumCalculate_input]
    rfl

theorem checksumCalculate_slot2 (input : Nat → Nat) :
    ∀ n, n ≤ 1008 → (checksumCalculate (zeroState input) n).buffer 2 = xorWords input n := by
  intro n
  induction n with
  | zero => intro _; rfl
  | succ n ih =>
    intro hn
    show (checksumCalculateStep (checksumCalculate (zeroState input) n) (n + 1)).buffer 2
      = xorWords input (n + 1)
    have e1 : sub32 (n + 1) 1 = n := by
      rw [sub32_of_le (n + 1) 1 (by simp only [WORD]; omega) (by omega)]
      rfl
    rw [checksumCalculateStep_slot2, e1, ih (by omega), checksumCalculate_input]
    rfl

theorem checksumCalculate_1008 (state : CheckSumState) :
    checksumCalculate state 1008
      = checksumCalculateStep (checksumCalculate state 1007) 1008 :=
  rfl

theorem sumWords_1008 (input : Nat → Nat) :
    sumWords input 1008 = (sumWords input 1007 + input 1007) % 2 ^ 32 :=
  rfl

theorem checksumCalculate_1008_slot12 (input : Nat → Nat) :
    (checksumCalculate (zeroState input) 1008).buffer 12 = sumWords input 1007 := by
  rw [checksumCalculate_1008, checksumCalculateStep_last _ _ (by decide),
    checksumCalculate_slot12 input 1007 (by decide)]

theorem sumWords_lookahead : ∀ n, n ≤ 1007 → sumWords lookaheadState.input n = 0 := by
  intro n
  induction n with
  | zero => intro _; rfl
  | succ n ih =>
    intro hn
    have hin : lookaheadState.input n = 0 := by
      simp only [lookaheadState]
      rw [if_neg (by omega)]
    simp only [sumWords, ih (by omega), hin]
    rfl

/-- C19 fails on the code: for the input that is zero except `input[1007] = 1`, the sum
of all 1008 words is 1, as the comment in `checksumCalculate` promises for slot 12, but
slot 12 after the 1008 steps from the zero accumulator is 0. -/
theorem final_slot12_misses_last_word :
    ((List.range 1008).map lookaheadState.input).sum % 2 ^ 32 = 1 ∧
      (checksumCalculate (zeroState lookaheadState.input) 1008).buffer 12 = 0 := by
  refine ⟨?_, ?_⟩
  · rw [← sumWords_eq_sum, sumWords_1008, sumWords_lookahead 1007 (by decide)]
    rfl
  · rw [checksumCalculate_1008_slot12, sumWords_lookahead 1007 (by decide)]

/-- What the code computes: after all 1008 steps from the all-zero accumulator, slot 12
is the sum modulo `2^32` of the first 1007 input words `input[0..1006]` (byte offsets 0
to 4024); the last word `input[1007]` is not added, since step 1008 returns before the
update of slot 12.  Slot 2 is the exclusive or of all 1008 words `input[0..1007]`. -/
theorem final_slot12_sums_first_1007_words (input : Nat → Nat) :
    (checksumCalculate (zeroState input) 1008).buffer 12
        = ((List.range 1007).map input).sum % 2 ^ 32 ∧
      (checksumCalculate (zeroState input) 1008).buffer 2
        = ((List.range 1008).map input).foldl (fun a b => a ^^^ b) 0 := by
  refine ⟨?_, ?_⟩
  · rw [checksumCalculate_1008_slot12, sumWords_eq_sum]
  · rw [checksumCalculate_slot2 input 1008 (by decide), xorWords_eq_foldl]

/-! ## The CPU half of step 1007 -/

theorem indep1007_eq_step_slot (state : CheckSumState) (hb : BufferInRange state.buffer)
    (h1005 : state.input 1005 = 0) (h1006 : state.input 1006 = 0) (i : Fin 16)
    (h10 : i ≠ 10) (h11 : i ≠ 11) (h13 : i ≠ 13) :
    (checksumCalculateStep_DataAndLastIsZero_1007_Indep state).buffer i
      = (checksumCalculateStep state 1007).buffer i := by
  have e1 : sub32 1007 1 = 1006 := by decide
  have e2 : sub32 1007 2 = 1005 := by decide
  have e0 : sub32 1007 1007 = 0 := by decide
  have n8 : (1007 : Nat) ≠ 1008 := by decide
  have a5 : add32 0 5 = 5 := by decide
  have a7 : add32 0 1007 = 1007 := by decide
  have z := fun i => add32_zero_right (state.buffer i) (hb i)
  rcases fin16_cases i with h | h | h | h | h | h | h | h | h | h | h | h | h | h | h | h <;>
    subst h
  · rw [indep1007_other _ _ (by decide) (by decide), checksumCalculateStep_slot0]
    simp [e0, hashMulDiff_zero_base, z]
  · rw [indep1007_other _ _ (by decide) (by decide),
      checksumCalculateStep_frame _ _ _ (by decide)]
  · rw [indep1007_other _ _ (by decide) (by decide), checksumCalculateStep_slot2]
    simp [e1, h1006]
  · rw [indep1007_slot3, checksumCalculateStep_slot3]
    simp [e1, h1006, a5]
  · rw [indep1007_other _ _ (by decide) (by decide), checksumCalculateStep_slot4]
    simp [e1, h1006, rotr32_zero, z]
  · rw [indep1007_other _ _ (by decide) (by decide), checksumCalculateStep_slot5]
    simp [e1, h1006, rotl32_zero, z]
  · rw [indep1007_slot6, checksumCalculateStep_slot6]
    simp [e1, h1006, rotr32_zero, z, a5, a7]
  · rw [indep1007_other _ _ (by decide) (by decide),
      checksumCalculateStep_frame _ _ _ (by decide)]
  · rw [indep1007_other _ _ (by decide) (by decide),
      checksumCalculateStep_frame _ _ _ (by decide)]
  · rw [indep1007_other _ _ (by decide) (by decide), checksumCalculateStep_slot9]
    simp [e1, e2, h1005, h1006, z]
  · exact absurd rfl h10
  · exact absurd rfl h11
  · rw [indep1007_other _ _ (by decide) (by decide),
      checksumCalculateStep_slot12 _ _ n8]
    simp [e1, h1006, z]
  · exact absurd rfl h13
  · rw [indep1007_other _ _ (by decide) (by decide),
      checksumCalculateStep_frame _ _ _ (by decide)]
  · rw [indep1007_other _ _ (by decide) (by decide),
      checksumCalculateStep_frame _ _ _ (by decide)]

/-- C20: for an accumulator of 32-bit words and an input with
`input[1005] = input[1006] = 0`, whatever word `v` stands in `input[1007]`, the state
after the independent tail step agrees with the state after the generic step 1007 on
every slot except 10, 11 and 13, in particular on slots 0-9 and 12, and on the input. -/
theorem indep1007_is_input_independent_half (state : CheckSumState) (v : Nat)
    (hb : BufferInRange state.buffer)
    (h1005 : state.input 1005 = 0) (h1006 : state.input 1006 = 0) :
    (∀ i : Fin 16, i ≠ 10 → i ≠ 11 → i ≠ 13 →
      (checksumCalculateStep_DataAndLastIsZero_1007_Indep state).buffer i
        = (checksumCalculateStep { state with input := setInput state.input 1007 v } 1007).buffer
            i) ∧
    (∀ i : Fin 16, i.val ≤ 9 ∨ i = 12 →
      (checksumCalculateStep_DataAndLastIsZero_1007_Indep state).buffer i
        = (checksumCalculateStep state 1007).buffer i) ∧
    (checksumCalculateStep_DataAndLastIsZero_1007_Indep state).input
      = (checksumCalculateStep state 1007).input := by
  refine ⟨?_, ?_, ?_⟩
  · intro i h10 h11 h13
    have h5 : (setInput state.input 1007 v) 1005 = 0 := by
      simp only [setInput]
      rw [if_neg (by decide), h1005]
    have h6 : (setInput state.input 1007 v) 1006 = 0 := by
      simp only [setInput]
      rw [if_neg (by decide), h1006]
    have hstep := indep1007_eq_step_slot { state with input := setInput state.input 1007 v }
      hb h5 h6 i h10 h11 h13
    rw [← hstep]
    rcases fin16_cases i with h | h | h | h | h | h | h | h | h | h | h | h | h | h | h | h <;>
      subst h <;>
      first
        | rw [indep1007_slot3, indep1007_slot3]
        | rw [indep1007_slot6, indep1007_slot6]
        | rw [indep1007_other _ _ (by decide) (by decide),
            indep1007_other _ _ (by decide) (by decide)]
  · intro i hi
    refine indep1007_eq_step_slot state hb h1005 h1006 i ?_ ?_ ?_
    · rintro rfl
      rcases hi with hi | hi
      · exact absurd hi (by decide)
      · exact absurd hi (by decide)
    · rintro rfl
      rcases hi with hi | hi
      · exact absurd hi (by decide)
      · exact absurd hi (by decide)
    · rintro rfl
      rcases hi with hi | hi
      · exact absurd hi (by decide)
      · exact absurd hi (by decide)
  · rw [indep1007_input, checksumCalculateStep_input]

theorem indep1007_is_input_independent_half_witness :
    BufferInRange sampleState.buffer ∧ sampleState.input 1005 = 0 ∧
      sampleState.input 1006 = 0 ∧
      (checksumCalculateStep_DataAndLastIsZero_1007_Indep sampleState).buffer 3
        = (checksumCalculateStep { sampleState with input := setInput sampleState.input 1007 77 }
            1007).buffer 3 :=
  have hb : BufferInRange sampleState.buffer := by
    intro i
    revert i
    decide
  ⟨hb, by decide, by decide,
    (indep1007_is_input_independent_half sampleState 77 hb (by decide) (by decide)).1 3
      (by decide) (by decide) (by decide)⟩

/-! ## The bounded input view -/

theorem readInput_of_lt (input : List Nat) (i : Nat) (h : i < input.length) :
    readInput input i = some (viewOf input i) := by
  simp only [readInput, if_pos h, viewOf]

theorem readInput_of_le (input : List Nat) (i : Nat) (h : input.length ≤ i) :
    readInput input i = none := by
  simp only [readInput, if_neg (Nat.not_lt.mpr h)]

theorem writeInput_of_lt (input : List Nat) (i v : Nat) (h : i < input.length) :
    writeInput input i v = some (input.set i v) := by
  simp only [writeInput, if_pos h]

theorem viewOf_set (input : List Nat) (i v : Nat) (h : i < input.length) :
    viewOf (input.set i v) = setInput (viewOf input) i v := by
  funext j
  simp only [viewOf, setInput, List.getD_eq_getElem?_getD, List.getElem?_set]
  by_cases hj : j = i
  · subst hj
    simp [h]
  · have hne : ¬ i = j := fun e => hj e.symm
    simp [hj, hne]

/-- The checked step succeeds exactly when the indices of `stepReadIndices` lie in the
array. -/
theorem checksumCalculateStepChecked_isSome (buffer : Fin 16 → Nat) (input : List Nat)
    (loop : Nat) :
    (checksumCalculateStepChecked buffer input loop).isSome = true
      ↔ ∀ i ∈ stepReadIndices loop, i < input.length := by
  simp only [stepReadIndices, List.mem_append, List.mem_cons, List.mem_singleton,
    List.not_mem_nil, or_false]
  by_cases hl : (if loop = 1 then 0 else sub32 loop 2) < input.length
  · by_cases hd : sub32 loop 1 < input.length
    · by_cases h8 : loop = 1008
      · simp only [checksumCalculateStepChecked, readInput_of_lt _ _ hl, readInput_of_lt _ _ hd,
          Option.some_bind, if_pos h8, Option.isSome_some, true_iff]
        intro i hi
        rcases hi with (hi | hi) | hi
        · rw [hi]; exact hl
        · rw [hi]; exact hd
        · simp at hi
      · by_cases hn : loop < input.length
        · simp only [checksumCalculateStepChecked, readInput_of_lt _ _ hl,
            readInput_of_lt _ _ hd, readInput_of_lt _ _ hn, Option.some_bind, if_neg h8,
            Option.isSome_some, true_iff]
          intro i hi
          rcases hi with (hi | hi) | hi
          · rw [hi]; exact hl
          · rw [hi]; exact hd
          · simp only [List.mem_singleton] at hi
            rw [hi]; exact hn
        · simp only [checksumCalculateStepChecked, readInput_of_lt _ _ hl,
            readInput_of_lt _ _ hd, readInput_of_le _ _ (Nat.le_of_not_lt hn),
            Option.some_bind, Option.none_bind, if_neg h8, Option.isSome_none]
          constructor
          · intro h; cases h
          · intro h
            exact absurd (h loop (Or.inr (by simp))) hn
    · simp only [checksumCalculateStepChecked, readInput_of_lt _ _ hl,
        readInput_of_le _ _ (Nat.le_of_not_lt hd), Option.some_bind, Option.none_bind,
        Option.isSome_none]
      constructor
      · intro h; cases h
      · intro h
        exact absurd (h _ (Or.inl (Or.inr rfl))) hd
  · simp only [checksumCalculateStepChecked, readInput_of_le _ _ (Nat.le_of_not_lt hl),
      Option.none_bind, Option.isSome_none]
    constructor
    · intro h; cases h
    · intro h
      exact absurd (h _ (Or.inl (Or.inl rfl))) hl

/-- When its reads lie in the array, the checked step is the step over the view. -/
theorem checksumCalculateStepChecked_eq (buffer : Fin 16 → Nat) (input : List Nat)
    (loop : Nat) (hin : ∀ i ∈ stepReadIndices loop, i < input.length) :
    checksumCalculateStepChecked buffer input loop
      = some (checksumCalculateStep { buffer := buffer, input := viewOf input } loop).buffer := by
  have hl : (if loop = 1 then 0 else sub32 loop 2) < input.length :=
    hin _ (by simp [stepReadIndices])
  have hd : sub32 loop 1 < input.length := hin _ (by simp [stepReadIndices])
  by_cases h8 : loop = 1008
  · simp only [checksumCalculateStepChecked, checksumCalculateStep, readInput_of_lt _ _ hl,
      readInput_of_lt _ _ hd, Option.some_bind, if_pos h8]
  · have hn : loop < input.length := hin _ (by simp [stepReadIndices, h8])
    simp only [checksumCalculateStepChecked, checksumCalculateStep, readInput_of_lt _ _ hl,
      readInput_of_lt _ _ hd, readInput_of_lt _ _ hn, Option.some_bind, if_neg h8]

theorem checksumCalculateStepChecked_eq_of_length (buffer : Fin 16 → Nat) (input : List Nat)
    (loop : Nat) (hlen : input.length = 1008) (h1 : 1 ≤ loop) (h2 : loop ≤ 1008) :
    checksumCalculateStepChecked buffer input loop
      = some (checksumCalculateStep { buffer := buffer, input := viewOf input } loop).buffer :=
  checksumCalculateStepChecked_eq buffer input loop
    (fun i hi => by rw [hlen]; exact (stepReadIndices_bound loop h1 h2 i hi).2)

theorem checksumCalculateStep_mk (state : CheckSumState) (loop : Nat) :
    (checksumCalculateStep { buffer := state.buffer, input := state.input } loop)
      = checksumCalculateStep state loop := rfl

theorem checksumCalculateChecked_eq (buffer : Fin 16 → Nat) (input : List Nat)
    (hlen : input.length = 1008) :
    ∀ n, n ≤ 1008 →
      checksumCalculateChecked buffer input n
        = some (checksumCalculate { buffer := buffer, input := viewOf input } n).buffer := by
  intro n
  induction n with
  | zero => intro _; rfl
  | succ n ih =>
    intro hn
    simp only [checksumCalculateChecked, ih (by omega), Option.some_bind]
    rw [checksumCalculateStepChecked_eq_of_length _ _ _ hlen (by omega) hn]
    congr 1
    apply checksumCalculateStep_congr
    · rfl
    · intro i _
      dsimp only
      rw [checksumCalculate_input]

theorem checksumCalculateStep_repack (state : CheckSumState) (loop : Nat) (view : Nat → Nat)
    (h : state.input = view) :
    ({ buffer := (checksumCalculateStep state loop).buffer, input := view } : CheckSumState)
      = checksumCalculateStep state loop := by
  apply CheckSumState.eq_of
  · rfl
  · dsimp only
    rw [checksumCalculateStep_input, h]

theorem outerPrepareChecked_eq (startingBuffer : Fin 16 → Nat) (input : List Nat)
    (inp1000 : Nat) (hlen : input.length = 1008) :
    outerPrepareChecked startingBuffer input inp1000
      = some ((outerPrepare startingBuffer (viewOf input) inp1000).buffer,
          ((input.set 1000 inp1000).set 1001 0).set 1002 0) := by
  have l0 : 1000 < input.length := by omega
  have l1 : 1001 < (input.set 1000 inp1000).length := by rw [List.length_set]; omega
  have l2 : 1002 < ((input.set 1000 inp1000).set 1001 0).length := by
    rw [List.length_set, List.length_set]; omega
  have l3 : (((input.set 1000 inp1000).set 1001 0).set 1002 0).length = 1008 := by
    rw [List.length_set, List.length_set, List.length_set]; exact hlen
  simp only [outerPrepareChecked, writeInput_of_lt _ _ _ l0, writeInput_of_lt _ _ _ l1,
    writeInput_of_lt _ _ _ l2, Option.some_bind,
    checksumCalculateChecked_eq startingBuffer _ l3 1002 (by decide)]
  rw [outerPrepare_eq, viewOf_set _ _ _ l2, viewOf_set _ _ _ l1, viewOf_set _ _ _ l0]

theorem outerPrepareChecked_view (startingBuffer : Fin 16 → Nat) (input : List Nat)
    (inp1000 : Nat) (hlen : input.length = 1008) :
    viewOf (((input.set 1000 inp1000).set 1001 0).set 1002 0)
      = (outerPrepare startingBuffer (viewOf input) inp1000).input := by
  have l0 : 1000 < input.length := by omega
  have l1 : 1001 < (input.set 1000 inp1000).length := by rw [List.length_set]; omega
  have l2 : 1002 < ((input.set 1000 inp1000).set 1001 0).length := by
    rw [List.length_set, List.length_set]; omega
  rw [outerPrepare_input, viewOf_set _ _ _ l2, viewOf_set _ _ _ l1, viewOf_set _ _ _ l0]

theorem middlePrepareChecked_view (oldBuffer : Fin 16 → Nat) (input : List Nat) (y : Nat)
    (hlen : input.length = 1008) :
    viewOf ((((input.set 1003 (sub32 (neg32 (oldBuffer 12)) y)).set 1004 y).set 1005 0).set
        1006 0)
      = (middlePrepare oldBuffer (viewOf input) y).input := by
  have l3 : 1003 < input.length := by omega
  have l4 : 1004 < (input.set 1003 (sub32 (neg32 (oldBuffer 12)) y)).length := by
    rw [List.length_set]; omega
  have l5 : 1005 < ((input.set 1003 (sub32 (neg32 (oldBuffer 12)) y)).set 1004 y).length := by
    rw [List.length_set, List.length_set]; omega
  have l6 : 1006 < (((input.set 1003 (sub32 (neg32 (oldBuffer 12)) y)).set 1004 y).set
      1005 0).length := by
    rw [List.length_set, List.length_set, List.length_set]; omega
  rw [middlePrepare_input, viewOf_set _ _ _ l6, viewOf_set _ _ _ l5, viewOf_set _ _ _ l4,
    viewOf_set _ _ _ l3]

theorem middlePrepare_eq_steps (oldBuffer : Fin 16 → Nat) (input : Nat → Nat) (y : Nat) :
    middlePrepare oldBuffer input y
      = checksumCalculateStep_DataAndLastIsZero_1007_Indep
          (checksumCalculateStep (checksumCalculateStep (checksumCalculateStep
            (checksumCalculateStep
              { buffer := oldBuffer, input := (middlePrepare oldBuffer input y).input } 1003)
            1004) 1005) 1006) := by
  rw [middlePrepare_input]
  rfl

theorem middlePrepareChecked_eq (oldBuffer : Fin 16 → Nat) (input : List Nat) (y : Nat)
    (hlen : input.length = 1008) :
    middlePrepareChecked oldBuffer input y
      = some ((middlePrepare oldBuffer (viewOf input) y).buffer,
          (((input.set 1003 (sub32 (neg32 (oldBuffer 12)) y)).set 1004 y).set 1005 0).set
            1006 0) := by
  have l3 : 1003 < input.length := by omega
  have l4 : 1004 < (input.set 1003 (sub32 (neg32 (oldBuffer 12)) y)).length := by
    rw [List.length_set]; omega
  have l5 : 1005 < ((input.set 1003 (sub32 (neg32 (oldBuffer 12)) y)).set 1004 y).length := by
    rw [List.length_set, List.length_set]; omega
  have l6 : 1006 < (((input.set 1003 (sub32 (neg32 (oldBuffer 12)) y)).set 1004 y).set
      1005 0).length := by
    rw [List.length_set, List.length_set, List.length_set]; omega
  have l7 : ((((input.set 1003 (sub32 (neg32 (oldBuffer 12)) y)).set 1004 y).set 1005 0).set
      1006 0).length = 1008 := by
    rw [List.length_set, List.length_set, List.length_set, List.length_set]; exact hlen
  simp only [middlePrepareChecked, writeInput_of_lt _ _ _ l3, writeInput_of_lt _ _ _ l4,
    writeInput_of_lt _ _ _ l5, writeInput_of_lt _ _ _ l6, Option.some_bind,
    checksumCalculateStepChecked_eq_of_length _ _ 1003 l7 (by decide) (by decide),
    checksumCalculateStepChecked_eq_of_length _ _ 1004 l7 (by decide) (by decide),
    checksumCalculateStepChecked_eq_of_length _ _ 1005 l7 (by decide) (by decide),
    checksumCalculateStepChecked_eq_of_length _ _ 1006 l7 (by decide) (by decide)]
  rw [middlePrepareChecked_view oldBuffer input y hlen]
  rw [checksumCalculateStep_repack _ 1003 _ rfl,
    checksumCalculateStep_repack _ 1004 _ (checksumCalculateStep_input _ _),
    checksumCalculateStep_repack _ 1005 _
      (by rw [checksumCalculateStep_input, checksumCalculateStep_input]),
    checksumCalculateStep_repack _ 1006 _
      (by rw [checksumCalculateStep_input, checksumCalculateStep_input,
        checksumCalculateStep_input]),
    ← middlePrepare_eq_steps]

/-! ## The checked sweeps against the sweeps over the view -/

theorem middleSweepChecked_agrees (device : (Fin 16 → Nat) → Nat) (oldBuffer : Fin 16 → Nat) :
    ∀ (fuel : Nat) (input : List Nat) (y : Nat), input.length = 1008 →
      (middleSweepChecked device oldBuffer fuel input y).Agrees
        ((middleSweep device oldBuffer fuel (viewOf input) y).map Prod.snd) := by
  intro fuel
  induction fuel with
  | zero =>
    intro input y _
    simp only [middleSweepChecked, middleSweep, Option.map_none', CheckedOutcome.Agrees]
  | succ fuel ih =>
    intro input y hlen
    have l7 : ((((input.set 1003 (sub32 (neg32 (oldBuffer 12)) y)).set 1004 y).set 1005 0).set
        1006 0).length = 1008 := by
      rw [List.length_set, List.length_set, List.length_set, List.length_set]; exact hlen
    by_cases hy : y < 0xFFFFFFFF
    · rw [middleSweep_succ _ _ _ _ _ hy]
      simp only [middleSweepChecked, if_pos hy, middlePrepareChecked_eq _ _ _ hlen]
      by_cases hm : device (middlePrepare oldBuffer (viewOf input) y).buffer > 0
      · rw [if_pos hm, if_pos hm, writeInput_of_lt _ _ _ (by rw [l7]; decide)]
        simp only [Option.map_some', CheckedOutcome.Agrees]
        refine ⟨by rw [List.length_set]; exact l7, ?_⟩
        rw [viewOf_set _ _ _ (by rw [l7]; decide), middlePrepareChecked_view _ _ _ hlen]
      · rw [if_neg hm, if_neg hm, add32_succ y hy, Option.map_map]
        have := ih _ (y + 1) l7
        rw [middlePrepareChecked_view _ _ _ hlen] at this
        exact this
    · rw [middleSweep_end _ _ _ _ _ hy]
      simp only [middleSweepChecked, if_neg hy, Option.map_some', CheckedOutcome.Agrees]
      exact ⟨hlen, trivial⟩

theorem outerSweepChecked_agrees (device : (Fin 16 → Nat) → Nat)
    (startingBuffer : Fin 16 → Nat) (startLoop : Nat) :
    ∀ (fuel : Nat) (input : List Nat) (inp1000 : Nat), input.length = 1008 →
      (outerSweepChecked device startingBuffer startLoop fuel input inp1000).Agrees
        (outerSweep device startingBuffer startLoop fuel (viewOf input) inp1000) := by
  intro fuel
  induction fuel with
  | zero =>
    intro input inp1000 _
    simp only [outerSweepChecked, outerSweep, CheckedOutcome.Agrees]
  | succ fuel ih =>
    intro input inp1000 hlen
    have l3 : (((input.set 1000 inp1000).set 1001 0).set 1002 0).length = 1008 := by
      rw [List.length_set, List.length_set, List.length_set]; exact hlen
    by_cases hi : inp1000 < 0xFFFFFFFF
    · simp only [outerSweepChecked, outerSweep, if_pos hi, outerPrepareChecked_eq _ _ _ hlen]
      have hmid := middleSweepChecked_agrees device
        (outerPrepare startingBuffer (viewOf input) inp1000).buffer WORD _ startLoop l3
      rw [outerPrepareChecked_view startingBuffer input inp1000 hlen] at hmid
      cases hc : middleSweepChecked device
          (outerPrepare startingBuffer (viewOf input) inp1000).buffer WORD
          (((input.set 1000 inp1000).set 1001 0).set 1002 0) startLoop with
      | found img =>
        rw [hc] at hmid
        cases hu : middleSweep device (outerPrepare startingBuffer (viewOf input) inp1000).buffer
            WORD (outerPrepare startingBuffer (viewOf input) inp1000).input startLoop with
        | none => rw [hu] at hmid; simp [CheckedOutcome.Agrees] at hmid
        | some r =>
          obtain ⟨visited, out⟩ := r
          rw [hu] at hmid
          cases out with
          | found v =>
            simp only [Option.map_some', CheckedOutcome.Agrees] at hmid ⊢
            exact hmid
          | exhausted v => simp [CheckedOutcome.Agrees] at hmid
      | exhausted img =>
        rw [hc] at hmid
        cases hu : middleSweep device (outerPrepare startingBuffer (viewOf input) inp1000).buffer
            WORD (outerPrepare startingBuffer (viewOf input) inp1000).input startLoop with
        | none => rw [hu] at hmid; simp [CheckedOutcome.Agrees] at hmid
        | some r =>
          obtain ⟨visited, out⟩ := r
          rw [hu] at hmid
          cases out with
          | found v => simp [CheckedOutcome.Agrees] at hmid
          | exhausted v =>
            simp only [Option.map_some', CheckedOutcome.Agrees] at hmid
            obtain ⟨hl, hv⟩ := hmid
            simp only
            rw [← hv]
            exact ih img _ hl
      | fault =>
        rw [hc] at hmid
        cases hu : middleSweep device (outerPrepare startingBuffer (viewOf input) inp1000).buffer
            WORD (outerPrepare startingBuffer (viewOf input) inp1000).input startLoop with
        | none => rw [hu] at hmid; simp [CheckedOutcome.Agrees] at hmid
        | some r =>
          obtain ⟨visited, out⟩ := r
          rw [hu] at hmid
          cases out <;> simp [CheckedOutcome.Agrees] at hmid
      | outOfFuel =>
        rw [hc] at hmid
        cases hu : middleSweep device (outerPrepare startingBuffer (viewOf input) inp1000).buffer
            WORD (outerPrepare startingBuffer (viewOf input) inp1000).input startLoop with
        | none => simp only [CheckedOutcome.Agrees]
        | some r =>
          obtain ⟨visited, out⟩ := r
          rw [hu] at hmid
          cases out <;> simp [CheckedOutcome.Agrees] at hmid
    · simp only [outerSweepChecked, outerSweep, if_neg hi, CheckedOutcome.Agrees]
      exact ⟨hlen, trivial⟩

theorem viewOf_drop (bootcode : List Nat) :
    viewOf (bootcode.drop (BOOTCODE_OFFSET / 4)) = inputView bootcode := by
  funext i
  simp only [viewOf, inputView, List.getD_eq_getElem?_getD, List.getElem?_drop, Nat.add_comm]

theorem checksumInitChecked_eq (buffer0 : Fin 16 → Nat) (input : List Nat) (seed : Nat)
    (h : 0 < input.length) :
    checksumInitChecked input seed
      = some (checksumInit { buffer := buffer0, input := viewOf input } seed).buffer := by
  simp only [checksumInitChecked, readInput_of_lt _ _ h, Option.some_bind, checksumInit]

theorem getElem?_eq_some_getD (l : List Nat) (m : Nat) (h : m < l.length) :
    l[m]? = some (l.getD m 0) := by
  simp [List.getD_eq_getElem?_getD, List.getElem?_eq_getElem h]

theorem take_append_eq_storeView (bootcode img : List Nat) (hb : bootcode.length = 1024)
    (hl : img.length = 1008) :
    bootcode.take (BOOTCODE_OFFSET / 4) ++ img = storeView bootcode (viewOf img) := by
  have h16 : BOOTCODE_OFFSET / 4 = 16 := by decide
  have h1024 : BOOTCODE_SIZE_WORDS = 1024 := by decide
  have htake : (bootcode.take 16).length = 16 := by
    rw [List.length_take]; omega
  apply List.ext_getElem?
  intro n
  simp only [storeView, h16, h1024, List.getElem?_map]
  by_cases hn : n < 1024
  · rw [List.getElem?_range hn]
    simp only [Option.map_some']
    by_cases hlow : n < 16
    · rw [if_pos hlow, List.getElem?_append_left (by rw [htake]; exact hlow),
        List.getElem?_take_of_lt hlow, getElem?_eq_some_getD _ _ (by omega)]
    · rw [if_neg hlow, List.getElem?_append_right (by rw [htake]; omega), htake,
        getElem?_eq_some_getD _ _ (by omega)]
      rfl
  · rw [List.getElem?_eq_none (by simp only [List.length_append, htake, hl]; omega),
      List.getElem?_eq_none (by simp only [List.length_range]; omega)]
    rfl

theorem searchChecked_core (device : (Fin 16 → Nat) → Nat) (bootcode : List Nat)
    (startLoop : Nat) (startingBuffer : Fin 16 → Nat) (input : List Nat)
    (hb : bootcode.length = 1024) (hlen : input.length = 1008) :
    (match outerSweepChecked device startingBuffer startLoop WORD input 0 with
      | CheckedOutcome.found input' =>
        CheckedOutcome.found (bootcode.take (BOOTCODE_OFFSET / 4) ++ input')
      | CheckedOutcome.exhausted input' =>
        CheckedOutcome.exhausted (bootcode.take (BOOTCODE_OFFSET / 4) ++ input')
      | CheckedOutcome.fault => CheckedOutcome.fault
      | CheckedOutcome.outOfFuel => CheckedOutcome.outOfFuel) ≠ CheckedOutcome.fault ∧
    ∀ img,
      (match outerSweepChecked device startingBuffer startLoop WORD input 0 with
        | CheckedOutcome.found input' =>
          CheckedOutcome.found (bootcode.take (BOOTCODE_OFFSET / 4) ++ input')
        | CheckedOutcome.exhausted input' =>
          CheckedOutcome.exhausted (bootcode.take (BOOTCODE_OFFSET / 4) ++ input')
        | CheckedOutcome.fault => CheckedOutcome.fault
        | CheckedOutcome.outOfFuel => CheckedOutcome.outOfFuel) = CheckedOutcome.found img
      ↔ (match outerSweep device startingBuffer startLoop WORD (viewOf input) 0 with
          | some (Outcome.found input') => some (storeView bootcode input')
          | _ => none) = some img := by
  have hagree := outerSweepChecked_agrees device startingBuffer startLoop WORD input 0 hlen
  cases hc : outerSweepChecked device startingBuffer startLoop WORD input 0 with
  | found l =>
    rw [hc] at hagree
    cases hu : outerSweep device startingBuffer startLoop WORD (viewOf input) 0 with
    | none => rw [hu] at hagree; simp [CheckedOutcome.Agrees] at hagree
    | some out =>
      rw [hu] at hagree
      cases out with
      | found v =>
        simp only [CheckedOutcome.Agrees] at hagree
        obtain ⟨hl, hv⟩ := hagree
        refine ⟨fun h => (by cases h), fun img => ?_⟩
        simp only [CheckedOutcome.found.injEq, Option.some.injEq]
        rw [← hv, take_append_eq_storeView bootcode l hb hl]
      | exhausted v => simp [CheckedOutcome.Agrees] at hagree
  | exhausted l =>
    rw [hc] at hagree
    cases hu : outerSweep device startingBuffer startLoop WORD (viewOf input) 0 with
    | none => rw [hu] at hagree; simp [CheckedOutcome.Agrees] at hagree
    | some out =>
      rw [hu] at hagree
      cases out with
      | found v => simp [CheckedOutcome.Agrees] at hagree
      | exhausted v =>
        refine ⟨fun h => (by cases h), fun img => ?_⟩
        simp
  | fault =>
    rw [hc] at hagree
    cases hu : outerSweep device startingBuffer startLoop WORD (viewOf input) 0 with
    | none => rw [hu] at hagree; simp [CheckedOutcome.Agrees] at hagree
    | some out =>
      rw [hu] at hagree
      cases out <;> simp [CheckedOutcome.Agrees] at hagree
  | outOfFuel =>
    rw [hc] at hagree
    cases hu : outerSweep device startingBuffer startLoop WORD (viewOf input) 0 with
    | none =>
      refine ⟨fun h => (by cases h), fun img => ?_⟩
      simp
    | some out =>
      rw [hu] at hagree
      cases out <;> simp [CheckedOutcome.Agrees] at hagree

/-- On an image of 1024 words the checked search makes no access outside the view, and
it finds exactly what the search over the view finds. -/
theorem bruteforceSearchChecked_agrees (device : (Fin 16 → Nat) → Nat) (bootcode : List Nat)
    (seed startLoop : Nat) (hb : bootcode.length = 1024) :
    bruteforceSearchChecked device bootcode seed startLoop ≠ CheckedOutcome.fault ∧
      ∀ img, bruteforceSearchChecked device bootcode seed startLoop = CheckedOutcome.found img
        ↔ bruteforceSearch device bootcode seed startLoop = some img := by
  have h16 : BOOTCODE_OFFSET / 4 = 16 := by decide
  have hview : (bootcode.drop (BOOTCODE_OFFSET / 4)).length = 1008 := by
    rw [List.length_drop, h16]; omega
  have hl0 : ((bootcode.drop (BOOTCODE_OFFSET / 4)).set 0
      (add32 (mul32 MAGIC_NUMBER (seed &&& 0xff)) 1)).length = 1008 := by
    rw [List.length_set]; exact hview
  have hsearch : bruteforceSearch device bootcode seed startLoop
      = match outerSweep device
          (checksumInit ⟨fun _ => 0, viewOf ((bootcode.drop (BOOTCODE_OFFSET / 4)).set 0
              (add32 (mul32 MAGIC_NUMBER (seed &&& 0xff)) 1))⟩ seed).buffer
          startLoop WORD
          (viewOf ((bootcode.drop (BOOTCODE_OFFSET / 4)).set 0
            (add32 (mul32 MAGIC_NUMBER (seed &&& 0xff)) 1))) 0 with
        | some (Outcome.found input') => some (storeView bootcode input')
        | _ => none := by
    rw [viewOf_set _ _ _ (by rw [hview]; decide), viewOf_drop]
    rfl
  have hchecked : bruteforceSearchChecked device bootcode seed startLoop
      = match outerSweepChecked device
          (checksumInit ⟨fun _ => 0, viewOf ((bootcode.drop (BOOTCODE_OFFSET / 4)).set 0
              (add32 (mul32 MAGIC_NUMBER (seed &&& 0xff)) 1))⟩ seed).buffer
          startLoop WORD
          ((bootcode.drop (BOOTCODE_OFFSET / 4)).set 0
            (add32 (mul32 MAGIC_NUMBER (seed &&& 0xff)) 1)) 0 with
        | CheckedOutcome.found input' =>
          CheckedOutcome.found (bootcode.take (BOOTCODE_OFFSET / 4) ++ input')
        | CheckedOutcome.exhausted input' =>
          CheckedOutcome.exhausted (bootcode.take (BOOTCODE_OFFSET / 4) ++ input')
        | CheckedOutcome.fault => CheckedOutcome.fault
        | CheckedOutcome.outOfFuel => CheckedOutcome.outOfFuel := by
    simp only [bruteforceSearchChecked, writeInput_of_lt _ _ _ (show 0 < _ by rw [hview]; decide),
      checksumInitChecked_eq (fun _ => 0) _ seed (show 0 < _ by rw [hl0]; decide)]
  rw [hsearch, hchecked]
  exact searchChecked_core device bootcode startLoop _ _ hb hl0

/-! ## Bounds of the input accesses -/

theorem getD_of_length_le (l : List Nat) (n : Nat) (h : l.length ≤ n) : l.getD n 0 = 0 := by
  rw [List.getD_eq_getElem?_getD, List.getElem?_eq_none h]
  rfl

/-- C17: the input view has 1008 words (it starts at byte `0x40` of the 4096-byte
image).  For a step index `loop` in 1..1008 the step with checked reads succeeds exactly
when the indices `loop - 2` (or 0), `loop - 1`, and `loop` unless `loop = 1008`, lie in
the array; these are below 1008, so on a view of 1008 words every read is in bounds and
the checked step is `checksumCalculateStep`.  The indices 0 and 1000..1007 are below
1008, and the search of `bruteforceFile` with checked accesses, on an image of 1024
words, never faults (no read or write outside the view), finds what the search over
the view finds, and changes no word of the view outside 0 and 1000..1007. -/
theorem input_accesses_in_bounds (loop : Nat) (h1 : 1 ≤ loop) (h2 : loop ≤ 1008) :
    (INPUT_WORDS = 1008 ∧ INPUT_WORDS * 4 + BOOTCODE_OFFSET = BOOTCODE_SIZE ∧
      BOOTCODE_OFFSET = 0x40 ∧ BOOTCODE_SIZE = 4096) ∧
    stepReadIndices loop
      = [if loop = 1 then 0 else loop - 2, loop - 1] ++ (if loop = 1008 then [] else [loop]) ∧
    (∀ i ∈ stepReadIndices loop, i < INPUT_WORDS) ∧
    (∀ (buffer : Fin 16 → Nat) (input : List Nat),
      (checksumCalculateStepChecked buffer input loop).isSome = true
        ↔ ∀ i ∈ stepReadIndices loop, i < input.length) ∧
    (∀ (buffer : Fin 16 → Nat) (input : List Nat), input.length = INPUT_WORDS →
      checksumCalculateStepChecked buffer input loop
        = some (checksumCalculateStep { buffer := buffer, input := viewOf input } loop).buffer) ∧
    (∀ i ∈ bruteforceWriteIndices, i < INPUT_WORDS) ∧
    (∀ (device : (Fin 16 → Nat) → Nat) (bootcode : List Nat) (seed startLoop : Nat),
      bootcode.length = BOOTCODE_SIZE_WORDS →
      bruteforceSearchChecked device bootcode seed startLoop ≠ CheckedOutcome.fault ∧
      (∀ img, bruteforceSearchChecked device bootcode seed startLoop = CheckedOutcome.found img
        ↔ bruteforceSearch device bootcode seed startLoop = some img) ∧
      (∀ img, bruteforceSearchChecked device bootcode seed startLoop = CheckedOutcome.found img →
        img.length = BOOTCODE_SIZE_WORDS ∧
        ∀ i, i ∉ bruteforceWriteIndices →
          img.getD (i + BOOTCODE_OFFSET / 4) 0 = bootcode.getD (i + BOOTCODE_OFFSET / 4) 0)) := by
  have hw : INPUT_WORDS = 1008 := by decide
  have h16 : BOOTCODE_OFFSET / 4 = 16 := by decide
  have h1024 : BOOTCODE_SIZE_WORDS = 1024 := by decide
  refine ⟨⟨hw, by decide, by decide, by decide⟩, ?_, ?_, ?_, ?_, ?_, ?_⟩
  · have e1 : sub32 loop 1 = loop - 1 := sub32_of_le loop 1 (by simp only [WORD]; omega) h1
    simp only [stepReadIndices, e1, sub32_two loop h1 h2]
  · intro i hi
    rw [hw]
    exact (stepReadIndices_bound loop h1 h2 i hi).2
  · intro buffer input
    exact checksumCalculateStepChecked_isSome buffer input loop
  · intro buffer input hlen
    rw [hw] at hlen
    exact checksumCalculateStepChecked_eq_of_length buffer input loop hlen h1 h2
  · rw [hw]
    decide
  · intro device bootcode seed startLoop hb
    rw [h1024] at hb ⊢
    obtain ⟨hfault, hiff⟩ := bruteforceSearchChecked_agrees device bootcode seed startLoop hb
    refine ⟨hfault, hiff, ?_⟩
    intro img hfound
    have hrun := (hiff img).mp hfound
    obtain ⟨input', himg, hoff, _, _, _⟩ := bruteforceSearch_found _ _ _ _ _ hrun
    rw [himg]
    refine ⟨storeView_length _ _, ?_⟩
    intro i hnot
    simp only [bruteforceWriteIndices, List.mem_cons, List.mem_singleton, List.not_mem_nil,
      or_false, not_or] at hnot
    rw [h16]
    by_cases hi : i < 1008
    · rw [storeView_getD _ _ (i + 16) (by omega), if_neg (by omega), Nat.add_sub_cancel,
        hoff i (by omega)]
      simp only [inputView, h16]
    · rw [getD_of_length_le _ _ (by rw [storeView_length]; omega),
        getD_of_length_le _ _ (by rw [hb]; omega)]

theorem input_accesses_in_bounds_witness :
    (1 ≤ 1008 ∧ 1008 ≤ 1008) ∧ stepReadIndices 1008 = [1006, 1007] ∧
      (∀ i ∈ stepReadIndices 1008, i < INPUT_WORDS) ∧
      (checksumCalculateStepChecked (fun _ => 0) (List.replicate 1008 0) 1008).isSome = true ∧
      (checksumCalculateStepChecked (fun _ => 0) (List.replicate 1007 0) 1008).isSome = false :=
  have h := input_accesses_in_bounds 1008 (by decide) (by decide)
  ⟨by decide, by decide, h.2.2.1,
    (h.2.2.2.1 (fun _ => 0) (List.replicate 1008 0)).mpr
      (fun i hi => by
        rw [List.length_replicate]
        exact h.2.2.1 i hi),
    by
      rw [Bool.eq_false_iff]
      intro hsome
      have hb := (h.2.2.2.1 (fun _ => 0) (List.replicate 1007 0)).mp hsome 1007 (by decide)
      rw [List.length_replicate] at hb
      exact absurd hb (by decide)⟩

end IplGpu
